import Mathlib

/-!
# Verification of the sol_dex_datahub event pipeline

A shallow embedding, in Lean 4, of the core data model and operations of the
`sol_dex_datahub` repository (a Solana DEX event ingestion and fan-out
pipeline written in Rust), together with theorems settling the frozen claims
about it.

Modelling conventions:
* `Pubkey` is represented by its base58 string form (`Pubkey::from_str`
  validation of account strings is not modelled; every pubkey comparison in
  the relevant code paths is an equality test, which the string form decides
  identically).
* Rust `u64` values are `Nat`; where wrap-around of `u64` arithmetic matters
  (the single subtraction in the Meteora DAMM path) it is modelled explicitly
  modulo `2 ^ 64`.
* Fallible Rust code (`anyhow::Result`) becomes `Except String`; `Option`
  stays `Option`.
* Redis interaction is modelled by explicit state passing: a cache lookup
  result becomes an `Option DexPoolRecord` argument, and list operations
  become pure functions on `List` values.
* The `f64` field `price_sol` of `TradeRecord` is not carried in the
  embedding: 64-bit floating point arithmetic has no faithful executable
  counterpart here, and no settled claim below depends on the field.
-/

namespace SolDexHub

/-- A Solana public key, represented by its canonical base58 string. -/
abbrev Pubkey := String

/-- `common.rs`: `pub const WSOL_MINT: Pubkey =
pubkey!("So11111111111111111111111111111111111111112");` -/
def WSOL_MINT : Pubkey := "So11111111111111111111111111111111111111112"

/-- `common.rs`: the `Dex` enum. -/
inductive Dex where
  | raydiumAmm
  | pumpfun
  | pumpAmm
  | meteoraDlmm
  | meteoraDamm
deriving DecidableEq, Repr

/-- `qn_req_processor.rs`: `TokenAmt { mint, decimals, amt }`. -/
structure TokenAmt where
  mint : String
  decimals : Nat
  amt : Nat
deriving DecidableEq, Repr

/-- `qn_req_processor.rs`: `Amt { sol, token }`. -/
structure Amt where
  sol : Nat
  token : Option TokenAmt
deriving DecidableEq, Repr

/-- `qn_req_processor.rs`: `IxAccount { pubkey, pre_amt, post_amt }`. -/
structure IxAccount where
  pubkey : String
  pre_amt : Amt
  post_amt : Amt
deriving DecidableEq, Repr

/-- `qn_req_processor.rs`: `Instruction { accounts, data, index }`. -/
structure Instruction where
  accounts : List IxAccount
  data : String
  index : Nat
deriving DecidableEq, Repr

/-- `qn_req_processor.rs`: `ProgramInvocation { program_id, instruction }`. -/
structure ProgramInvocation where
  program_id : String
  instruction : Instruction
deriving DecidableEq, Repr

/-- `qn_req_processor.rs`: `Tx { blk_ts, slot, signature, logs, ixs }`. -/
structure Tx where
  blk_ts : Int
  slot : Nat
  signature : String
  logs : List String
  ixs : List ProgramInvocation
deriving DecidableEq, Repr

/-- `common.rs`: `TxBaseMetaInfo`; `blk_ts` is epoch seconds. -/
structure TxBaseMetaInfo where
  blk_ts : Int
  slot : Nat
  txid : String
  idx : Nat
deriving DecidableEq, Repr

/-- `cache/pool.rs`: `DexPoolRecord`. -/
structure DexPoolRecord where
  addr : Pubkey
  dex : Dex
  is_complete : Bool
  mint_a : Pubkey
  mint_b : Pubkey
  decimals_a : Nat
  decimals_b : Nat
deriving DecidableEq, Repr

/-- `cache/pool.rs`: `DexPoolRecord::is_wsol_pool`:
`self.mint_a == WSOL_MINT || self.mint_b == WSOL_MINT`. -/
def DexPoolRecord.is_wsol_pool (p : DexPoolRecord) : Bool :=
  p.mint_a == WSOL_MINT || p.mint_b == WSOL_MINT

/-- `cache/pool.rs`: `DexPoolRecord::is_raydium_buy`. -/
def DexPoolRecord.is_raydium_buy (p : DexPoolRecord) (direction : Nat) : Bool :=
  -- pc2coin
  if direction == 1 then
    if p.mint_b == WSOL_MINT then true else false
  else
    -- coin2pc
    if p.mint_b == WSOL_MINT then false else true

/-- `cache/pool.rs`: `DexPoolRecord::is_meteora_dlmm_buy`. -/
def DexPoolRecord.is_meteora_dlmm_buy (p : DexPoolRecord) (swap_for_y : Bool) : Bool :=
  if swap_for_y then
    if p.mint_a == WSOL_MINT then true else false
  else
    if p.mint_a == WSOL_MINT then false else true

/-- `cache/pool.rs`: `DexPoolRecord::token_decimals`. -/
def DexPoolRecord.token_decimals (p : DexPoolRecord) : Nat :=
  if p.mint_a == WSOL_MINT then p.decimals_b else p.decimals_a

/-- `cache/pool.rs`: `DexPoolRecord::token_mint`. -/
def DexPoolRecord.token_mint (p : DexPoolRecord) : Pubkey :=
  if p.mint_a == WSOL_MINT then p.mint_b else p.mint_a

/-- `cache/pool.rs`: `DexPoolCreatedRecord`. -/
structure DexPoolCreatedRecord where
  blk_ts : Int
  slot : Nat
  txid : String
  idx : Nat
  creator : Pubkey
  addr : Pubkey
  dex : Dex
  mint_a : Pubkey
  mint_b : Pubkey
  decimals_a : Nat
  decimals_b : Nat
deriving DecidableEq, Repr

/-- `cache/pumpfun_complete.rs`: `PumpfunCompleteRecord`. -/
structure PumpfunCompleteRecord where
  blk_ts : Int
  slot : Nat
  txid : String
  idx : Nat
  user : Pubkey
  mint : Pubkey
  bonding_curve : Pubkey
deriving DecidableEq, Repr

/-- `cache/trade.rs`: `TradeRecord` (the `f64` field `price_sol` is not
modelled, see the module docstring). -/
structure TradeRecord where
  blk_ts : Int
  slot : Nat
  txid : String
  idx : Nat
  mint : Pubkey
  decimals : Nat
  trader : Pubkey
  dex : Dex
  pool : Pubkey
  pool_sol_amt : Nat
  pool_token_amt : Nat
  is_buy : Bool
  sol_amt : Nat
  token_amt : Nat
deriving DecidableEq, Repr

/-- `cache/dex_evt.rs`: `DexEvent`. -/
inductive DexEvent where
  | trade (r : TradeRecord)
  | poolCreated (r : DexPoolCreatedRecord)
  | pumpfunComplete (r : PumpfunCompleteRecord)
deriving DecidableEq, Repr

end SolDexHub

namespace SolDexHub

/-! ## Decoded DEX event records (§ decoders)

Pubkey-typed fields that the normalizer consumes are represented by base58
strings; pubkey fields only produced by the byte-level decoders (`market`,
`mint`, `user`, ...) are raw 32-byte lists. -/

/-- `raydium/event.rs`: `InitLog`. -/
structure InitLog where
  log_type : Nat
  time : Nat
  pc_decimals : Nat
  coin_decimals : Nat
  pc_lot_size : Nat
  coin_lot_size : Nat
  pc_amount : Nat
  coin_amount : Nat
  market : List Nat
deriving DecidableEq, Repr

/-- `raydium/event.rs`: `DepositLog`. -/
structure DepositLog where
  log_type : Nat
  max_coin : Nat
  max_pc : Nat
  base : Nat
  pool_coin : Nat
  pool_pc : Nat
  pool_lp : Nat
  calc_pnl_x : Nat
  calc_pnl_y : Nat
  deduct_coin : Nat
  deduct_pc : Nat
  mint_lp : Nat
deriving DecidableEq, Repr

/-- `raydium/event.rs`: `WithdrawLog`. -/
structure WithdrawLog where
  log_type : Nat
  withdraw_lp : Nat
  user_lp : Nat
  pool_coin : Nat
  pool_pc : Nat
  pool_lp : Nat
  calc_pnl_x : Nat
  calc_pnl_y : Nat
  out_coin : Nat
  out_pc : Nat
deriving DecidableEq, Repr

/-- `raydium/event.rs`: `SwapBaseInLog`. -/
structure SwapBaseInLog where
  log_type : Nat
  amount_in : Nat
  minimum_out : Nat
  direction : Nat
  user_source : Nat
  pool_coin : Nat
  pool_pc : Nat
  out_amount : Nat
deriving DecidableEq, Repr

/-- `raydium/event.rs`: `SwapBaseOutLog`. -/
structure SwapBaseOutLog where
  log_type : Nat
  max_in : Nat
  amount_out : Nat
  direction : Nat
  user_source : Nat
  pool_coin : Nat
  pool_pc : Nat
  deduct_in : Nat
deriving DecidableEq, Repr

/-- `raydium/event.rs`: the `RayLogs` sum type. -/
inductive RayLogs where
  | init (l : InitLog)
  | deposit (l : DepositLog)
  | withdraw (l : WithdrawLog)
  | swapBaseIn (l : SwapBaseInLog)
  | swapBaseOut (l : SwapBaseOutLog)
deriving DecidableEq, Repr

/-- `pumpfun/event.rs`: `TradeEvent` (borsh record; 32-byte pubkeys kept as
byte lists). -/
structure TradeEvent where
  discriminator : Nat
  mint : List Nat
  sol_amount : Nat
  token_amount : Nat
  is_buy : Bool
  user : List Nat
  timestamp : Int
  virtual_sol_reserves : Nat
  virtual_token_reserves : Nat
  real_sol_reserves : Nat
  real_token_reserves : Nat
deriving DecidableEq, Repr

/-- `pumpfun/event.rs`: `CreateEvent` (the borsh `String` fields are kept as
their raw byte payloads; UTF-8 validity of those payloads is not modelled,
which can only turn a decode error into a success, never affect a panic). -/
structure CreateEvent where
  discriminator : Nat
  name : List Nat
  symbol : List Nat
  uri : List Nat
  mint : List Nat
  bonding_curve : List Nat
  user : List Nat
deriving DecidableEq, Repr

/-- `pumpfun/event.rs`: `CompleteEvent`. -/
structure CompleteEvent where
  discriminator : Nat
  user : List Nat
  mint : List Nat
  bonding_curve : List Nat
  timestamp : Int
deriving DecidableEq, Repr

/-- `pumpfun/event.rs`: `SetParamsEvent`. -/
structure SetParamsEvent where
  discriminator : Nat
  fee_recipient : List Nat
  initial_virtual_token_reserves : Nat
  initial_virtual_sol_reserves : Nat
  initial_real_token_reserves : Nat
  token_total_supply : Nat
  fee_basis_points : Nat
deriving DecidableEq, Repr

/-- `pumpfun/event.rs`: the `PumpFunEvents` sum type. -/
inductive PumpFunEvents where
  | trade (e : TradeEvent)
  | create (e : CreateEvent)
  | complete (e : CompleteEvent)
  | setParams (e : SetParamsEvent)
deriving DecidableEq, Repr

/-- `pumpamm/event.rs`: `PumpAmmBuyEvent` (normalizer view: pubkeys as
base58 strings). -/
structure PumpAmmBuyEvent where
  timestamp : Int
  base_amount_out : Nat
  max_quote_amount_in : Nat
  user_base_token_reserves : Nat
  user_quote_token_reserves : Nat
  pool_base_token_reserves : Nat
  pool_quote_token_reserves : Nat
  quote_amount_in : Nat
  lp_fee_basis_points : Nat
  lp_fee : Nat
  protocol_fee_basis_points : Nat
  protocol_fee : Nat
  quote_amount_in_with_lp_fee : Nat
  user_quote_amount_in : Nat
  pool : Pubkey
  user : Pubkey
deriving DecidableEq, Repr

/-- `pumpamm/event.rs`: `PumpAmmSellEvent` (normalizer view). -/
structure PumpAmmSellEvent where
  timestamp : Int
  base_amount_in : Nat
  min_quote_amount_out : Nat
  user_base_token_reserves : Nat
  user_quote_token_reserves : Nat
  pool_base_token_reserves : Nat
  pool_quote_token_reserves : Nat
  quote_amount_out : Nat
  lp_fee_basis_points : Nat
  lp_fee : Nat
  protocol_fee_basis_points : Nat
  protocol_fee : Nat
  quote_amount_out_without_lp_fee : Nat
  user_quote_amount_out : Nat
  pool : Pubkey
  user : Pubkey
deriving DecidableEq, Repr

/-- `meteora/dlmm/event.rs`: `MeteoraDlmmSwapEvent` (normalizer view). -/
structure MeteoraDlmmSwapEvent where
  lb_pair : Pubkey
  source : Pubkey
  start_bin_id : Int
  end_bin_id : Int
  amount_in : Nat
  amount_out : Nat
  swap_for_y : Bool
  fee : Nat
  protocol_fee : Nat
  fee_bps : Nat
  host_fee : Nat
deriving DecidableEq, Repr

/-- `meteora/damm/event.rs`: `MeteoraDammSwap`. -/
structure MeteoraDammSwap where
  in_amount : Nat
  out_amount : Nat
  trade_fee : Nat
  protocol_fee : Nat
  host_fee : Nat
deriving DecidableEq, Repr

end SolDexHub

namespace SolDexHub

/-! ## Pool derivation (`cache/pool.rs`, `DexPoolRecord::from_*_accounts`)

Each Rust function first consults redis under `pool:<addr>`; the lookup
result is passed in as `cached`.  On a miss the record is derived from the
instruction accounts (and written back, a pure side effect not modelled). -/

/-- `cache/pool.rs`: `DexPoolRecord::from_meteora_swap_accounts`. -/
def DexPoolRecord.from_meteora_swap_accounts (lbpair_pubkey : Pubkey)
    (accounts : List IxAccount) (cached : Option DexPoolRecord) :
    Except String DexPoolRecord :=
  match cached with
  | some p => .ok p
  | none =>
    match accounts[2]? with
    | none => .error "need token x value in meteora dlmm swap log"
    | some token_x_vault =>
      match token_x_vault.post_amt.token with
      | none => .error "meteora dlmm token x vault should have balance"
      | some pool_token_x_amt =>
        match accounts[3]? with
        | none => .error "need token y value in meteora dlmm swap log"
        | some token_y_vault =>
          match token_y_vault.post_amt.token with
          | none => .error "meteora dlmm token y vault should have balance"
          | some pool_token_y_amt =>
            .ok { addr := lbpair_pubkey, dex := .meteoraDlmm, is_complete := false,
                  mint_a := pool_token_x_amt.mint, mint_b := pool_token_y_amt.mint,
                  decimals_a := pool_token_x_amt.decimals,
                  decimals_b := pool_token_y_amt.decimals }

/-- `cache/pool.rs`: `DexPoolRecord::from_meteora_damm_swap_accounts`. -/
def DexPoolRecord.from_meteora_damm_swap_accounts (pool : Pubkey)
    (accounts : List IxAccount) (cached : Option DexPoolRecord) :
    Except String DexPoolRecord :=
  match cached with
  | some p => .ok p
  | none =>
    match accounts[5]? with
    | none => .error "need token a value in meteora damm swap log"
    | some token_vault_a =>
      match token_vault_a.post_amt.token with
      | none => .error "meteora damm token a vault should have balance"
      | some pool_token_a_amt =>
        match accounts[6]? with
        | none => .error "need token b value in meteora damm swap log"
        | some token_vault_b =>
          match token_vault_b.post_amt.token with
          | none => .error "meteora damm token b vault should have balance"
          | some pool_token_b_amt =>
            .ok { addr := pool, dex := .meteoraDamm, is_complete := false,
                  mint_a := pool_token_a_amt.mint, mint_b := pool_token_b_amt.mint,
                  decimals_a := pool_token_a_amt.decimals,
                  decimals_b := pool_token_b_amt.decimals }

/-- `cache/pool.rs`: `DexPoolRecord::from_pumpamm_swap_accounts`
(base vault at index 7, quote vault at index 8). -/
def DexPoolRecord.from_pumpamm_swap_accounts (pool_pubkey : Pubkey)
    (accounts : List IxAccount) (cached : Option DexPoolRecord) :
    Except String DexPoolRecord :=
  match cached with
  | some p => .ok p
  | none =>
    match accounts[7]? with
    | none => .error "need base token vault in pumpamm swap log"
    | some base_token_vault =>
      match base_token_vault.post_amt.token with
      | none => .error "base token should have balance in pumpamm swap log"
      | some base_token_amt =>
        match accounts[8]? with
        | none => .error "need quote token vault in pumpamm swap log"
        | some quote_token_vault =>
          match quote_token_vault.post_amt.token with
          | none => .error "quote token should have balance in pumpamm swap log"
          | some quote_token_amt =>
            .ok { addr := pool_pubkey, dex := .pumpAmm, is_complete := false,
                  mint_a := base_token_amt.mint, mint_b := quote_token_amt.mint,
                  decimals_a := base_token_amt.decimals,
                  decimals_b := quote_token_amt.decimals }

/-- `cache/pool.rs`: `DexPoolRecord::from_raydium_amm_trade_accounts`
(`trade.rs` invokes it under the misspelling `from_raydim_amm_trade_accounts`;
the 18-account instruction variant shifts the vault indices from 4/5 to 5/6). -/
def DexPoolRecord.from_raydium_amm_trade_accounts (amm_pubkey : Pubkey)
    (accounts : List IxAccount) (cached : Option DexPoolRecord) :
    Except String DexPoolRecord :=
  match cached with
  | some p => .ok p
  | none =>
    let coin_token_vault_idx := if accounts.length == 18 then 5 else 4
    let pc_token_vault_idx := if accounts.length == 18 then 6 else 5
    match accounts[coin_token_vault_idx]? with
    | none => .error "need coin token vault in raydium amm swap base in log"
    | some coin_token_vault =>
      match coin_token_vault.post_amt.token with
      | none => .error "coin token should have balance in raydium amm base in swap"
      | some coin_token_amt =>
        match accounts[pc_token_vault_idx]? with
        | none => .error "need pc token vault in raydium amm swap base in log"
        | some pc_token_vault =>
          match pc_token_vault.post_amt.token with
          | none => .error "pc token should have balance in raydium amm base in swap log"
          | some pc_token_amt =>
            .ok { addr := amm_pubkey, dex := .raydiumAmm, is_complete := false,
                  mint_a := coin_token_amt.mint, mint_b := pc_token_amt.mint,
                  decimals_a := coin_token_amt.decimals,
                  decimals_b := pc_token_amt.decimals }

/-- `cache/pool.rs`: `DexPoolRecord::from_pumpfun_trade_accounts` (curve at
account 3, mint at account 2, quote side fixed to WSOL with decimals 6/9;
the account extraction happens before the cache lookup is inspected). -/
def DexPoolRecord.from_pumpfun_trade_accounts (accounts : List IxAccount)
    (cached : Option DexPoolRecord) : Except String DexPoolRecord :=
  match accounts[3]? with
  | none => .error "need curve addr in pumpfun trade accounts"
  | some curve_acc =>
    match accounts[2]? with
    | none => .error "need token addr in pumpfun trade accounts"
    | some mint_acc =>
      match cached with
      | some p => .ok p
      | none =>
        .ok { addr := curve_acc.pubkey, dex := .pumpfun, is_complete := false,
              mint_a := mint_acc.pubkey, mint_b := WSOL_MINT,
              decimals_a := 6, decimals_b := 9 }

/-- `cache/pool.rs`: `DexPoolRecord::from_pumpfun_curve_and_mint`. -/
def DexPoolRecord.from_pumpfun_curve_and_mint (curve mint : Pubkey)
    (is_complete : Bool) : DexPoolRecord :=
  { addr := curve, dex := .pumpfun, is_complete,
    mint_a := mint, mint_b := WSOL_MINT, decimals_a := 6, decimals_b := 9 }

end SolDexHub

namespace SolDexHub

/-! ## Trade normalization (`cache/trade.rs`)

The per-DEX amount selections that `trade.rs` writes inline are factored
into named definitions (verbatim the source expressions), so that theorems
can speak about them. -/

/-- `cache/trade.rs` lines 504-518: SOL side of a Raydium SwapBaseIn. -/
def raydium_base_in_sol_amt (pool : DexPoolRecord) (log : SwapBaseInLog) : Nat :=
  if log.direction == 1 then
    -- pc2coin
    if pool.mint_b == WSOL_MINT then log.amount_in else log.out_amount
  else
    -- coin2pc
    if pool.mint_b == WSOL_MINT then log.out_amount else log.amount_in

/-- `cache/trade.rs` lines 519-533: token side of a Raydium SwapBaseIn. -/
def raydium_base_in_token_amt (pool : DexPoolRecord) (log : SwapBaseInLog) : Nat :=
  if log.direction == 1 then
    if pool.mint_b == WSOL_MINT then log.out_amount else log.amount_in
  else
    if pool.mint_b == WSOL_MINT then log.amount_in else log.out_amount

/-- `cache/trade.rs` lines 625-639: SOL side of a Raydium SwapBaseOut. -/
def raydium_base_out_sol_amt (pool : DexPoolRecord) (log : SwapBaseOutLog) : Nat :=
  if log.direction == 1 then
    if pool.mint_b == WSOL_MINT then log.deduct_in else log.amount_out
  else
    if pool.mint_b == WSOL_MINT then log.amount_out else log.deduct_in

/-- `cache/trade.rs` lines 640-654: token side of a Raydium SwapBaseOut. -/
def raydium_base_out_token_amt (pool : DexPoolRecord) (log : SwapBaseOutLog) : Nat :=
  if log.direction == 1 then
    if pool.mint_b == WSOL_MINT then log.amount_out else log.deduct_in
  else
    if pool.mint_b == WSOL_MINT then log.deduct_in else log.amount_out

/-- `cache/trade.rs` lines 270-280: SOL side of a Meteora DLMM swap. -/
def meteora_dlmm_sol_amt (pool : DexPoolRecord) (log : MeteoraDlmmSwapEvent) : Nat :=
  if log.swap_for_y then
    if pool.mint_a == WSOL_MINT then log.amount_in else log.amount_out
  else
    if pool.mint_a == WSOL_MINT then log.amount_out else log.amount_in

/-- `cache/trade.rs` lines 281-291: token side of a Meteora DLMM swap. -/
def meteora_dlmm_token_amt (pool : DexPoolRecord) (log : MeteoraDlmmSwapEvent) : Nat :=
  if log.swap_for_y then
    if pool.mint_a == WSOL_MINT then log.amount_out else log.amount_in
  else
    if pool.mint_a == WSOL_MINT then log.amount_in else log.amount_out

/-- Wrapping `u64` subtraction (`a - b` in release-mode Rust); coincides
with `a - b` on `Nat` whenever `b ≤ a < 2 ^ 64`. -/
def u64_wrap_sub (a b : Nat) : Nat := (a + 2 ^ 64 - b) % 2 ^ 64

/-- `cache/trade.rs` lines 377-385: mint of the user's source token account
(account 1), taking the pre-balance first, then the post-balance. -/
def meteora_damm_user_source_token_mint (accounts : List IxAccount) :
    Option String :=
  ((accounts[1]?).bind fun it => (it.pre_amt.token.or it.post_amt.token)).map
    TokenAmt.mint

/-- `cache/trade.rs` lines 386-394: mint of the user's destination token
account (account 2). -/
def meteora_damm_user_dest_token_mint (accounts : List IxAccount) :
    Option String :=
  ((accounts[2]?).bind fun it => (it.pre_amt.token.or it.post_amt.token)).map
    TokenAmt.mint

/-- `cache/trade.rs` lines 402-406: Meteora DAMM buy/sell inference — the
user paid SOL (buy) when the source account's mint is WSOL; with no source
token balance, `user_dest_token_mint.unwrap() != WSOL_MINT` decides. -/
def meteora_damm_is_buy (accounts : List IxAccount) : Bool :=
  match meteora_damm_user_source_token_mint accounts with
  | some m => m == WSOL_MINT
  | none =>
    !((meteora_damm_user_dest_token_mint accounts).getD "" == WSOL_MINT)

/-- `cache/trade.rs` lines 407-411: Meteora DAMM amount pair
`(sol_amt, token_amt)`. -/
def meteora_damm_amounts (is_buy : Bool) (log : MeteoraDammSwap) : Nat × Nat :=
  if is_buy then (u64_wrap_sub log.in_amount log.protocol_fee, log.out_amount)
  else (log.out_amount, u64_wrap_sub log.in_amount log.protocol_fee)

/-- `cache/trade.rs`: `TradeRecord::from_pumpamm_buy`. -/
def TradeRecord.from_pumpamm_buy (meta : TxBaseMetaInfo) (log : PumpAmmBuyEvent)
    (accounts : List IxAccount) (cached : Option DexPoolRecord) :
    Except String (Option TradeRecord) :=
  match DexPoolRecord.from_pumpamm_swap_accounts log.pool accounts cached with
  | .error e => .error e
  | .ok cached_pool =>
    if !cached_pool.is_wsol_pool then
      -- only accept WSOL pair
      .ok none
    else
      match accounts[7]? with
      | none => .error "need base token vault in pumpamm swap log"
      | some base_token_vault =>
        match base_token_vault.post_amt.token with
        | none => .error "base token should have balance in pumpamm swap log"
        | some base_token_amt =>
          match accounts[8]? with
          | none => .error "need quote token vault in pumpamm swap log"
          | some quote_token_vault =>
            match quote_token_vault.post_amt.token with
            | none => .error "quote token should have balance in pumpamm swap log"
            | some quote_token_amt =>
              let (pool_sol_amt, pool_token_amt, sol_amt, token_amt, is_buy) :=
                if cached_pool.mint_a == WSOL_MINT then
                  (base_token_amt.amt, quote_token_amt.amt,
                   log.base_amount_out, log.quote_amount_in_with_lp_fee, false)
                else
                  (quote_token_amt.amt, base_token_amt.amt,
                   log.quote_amount_in_with_lp_fee, log.base_amount_out, true)
              .ok (some
                { blk_ts := meta.blk_ts, slot := meta.slot, txid := meta.txid,
                  idx := meta.idx, mint := cached_pool.token_mint,
                  decimals := cached_pool.token_decimals, trader := log.user,
                  dex := .pumpAmm, pool := log.pool, pool_sol_amt,
                  pool_token_amt, is_buy, sol_amt, token_amt })

/-- `cache/trade.rs`: `TradeRecord::from_pumpamm_sell`. -/
def TradeRecord.from_pumpamm_sell (meta : TxBaseMetaInfo) (log : PumpAmmSellEvent)
    (accounts : List IxAccount) (cached : Option DexPoolRecord) :
    Except String (Option TradeRecord) :=
  match DexPoolRecord.from_pumpamm_swap_accounts log.pool accounts cached with
  | .error e => .error e
  | .ok cached_pool =>
    if !cached_pool.is_wsol_pool then
      -- only accept WSOL pair
      .ok none
    else
      match accounts[7]? with
      | none => .error "need base token vault in pumpamm swap log"
      | some base_token_vault =>
        match base_token_vault.post_amt.token with
        | none => .error "base token should have balance in pumpamm swap log"
        | some base_token_amt =>
          match accounts[8]? with
          | none => .error "need quote token vault in pumpamm swap log"
          | some quote_token_vault =>
            match quote_token_vault.post_amt.token with
            | none => .error "quote token should have balance in pumpamm swap log"
            | some quote_token_amt =>
              let (pool_sol_amt, pool_token_amt, sol_amt, token_amt, is_buy) :=
                if cached_pool.mint_a == WSOL_MINT then
                  (base_token_amt.amt, quote_token_amt.amt,
                   log.base_amount_in, log.user_quote_amount_out, true)
                else
                  (quote_token_amt.amt, base_token_amt.amt,
                   log.user_quote_amount_out, log.base_amount_in, false)
              .ok (some
                { blk_ts := meta.blk_ts, slot := meta.slot, txid := meta.txid,
                  idx := meta.idx, mint := cached_pool.token_mint,
                  decimals := cached_pool.token_decimals, trader := log.user,
                  dex := .pumpAmm, pool := log.pool, pool_sol_amt,
                  pool_token_amt, is_buy, sol_amt, token_amt })

end SolDexHub

namespace SolDexHub

/-- `cache/trade.rs`: `TradeRecord::from_meteora_dlmm_swap`. -/
def TradeRecord.from_meteora_dlmm_swap (meta : TxBaseMetaInfo)
    (log : MeteoraDlmmSwapEvent) (accounts : List IxAccount)
    (cached : Option DexPoolRecord) : Except String (Option TradeRecord) :=
  match accounts.head? with
  | none => .error "need meteora dlmm lbpair pubkey in swap log"
  | some pool_acc =>
    let lb_pair_pubkey := pool_acc.pubkey
    match DexPoolRecord.from_meteora_swap_accounts lb_pair_pubkey accounts cached with
    | .error e => .error e
    | .ok cached_pool =>
      if !cached_pool.is_wsol_pool then
        -- only accept WSOL pair
        .ok none
      else
        match accounts[10]? with
        | none => .error "need trader pubkey in meteora dlmm swap log"
        | some trader_acc =>
          match accounts[2]? with
          | none => .error "need token x value in meteora dlmm swap log"
          | some token_x_vault =>
            match token_x_vault.post_amt.token with
            | none => .error "meteora dlmm token x vault should have balance"
            | some pool_token_x_amt =>
              match accounts[3]? with
              | none => .error "need token y value in meteora dlmm swap log"
              | some token_y_vault =>
                match token_y_vault.post_amt.token with
                | none => .error "meteora dlmm token y vault should have balance"
                | some pool_token_y_amt =>
                  let is_token_x_sol := pool_token_x_amt.mint == WSOL_MINT
                  let is_buy := cached_pool.is_meteora_dlmm_buy log.swap_for_y
                  let sol_amt := meteora_dlmm_sol_amt cached_pool log
                  let token_amt := meteora_dlmm_token_amt cached_pool log
                  if sol_amt == 0 || token_amt == 0 then
                    .ok none
                  else
                    let (pool_token_amt, pool_sol_amt) :=
                      if is_token_x_sol then
                        (pool_token_y_amt.amt, pool_token_x_amt.amt)
                      else
                        (pool_token_x_amt.amt, pool_token_y_amt.amt)
                    .ok (some
                      { blk_ts := meta.blk_ts, slot := meta.slot,
                        txid := meta.txid, idx := meta.idx,
                        mint := cached_pool.token_mint,
                        decimals := cached_pool.token_decimals,
                        trader := trader_acc.pubkey, dex := .meteoraDlmm,
                        pool := lb_pair_pubkey, pool_token_amt, pool_sol_amt,
                        is_buy, sol_amt, token_amt })

/-- `cache/trade.rs`: `TradeRecord::from_meteora_damm_swap`. -/
def TradeRecord.from_meteora_damm_swap (meta : TxBaseMetaInfo)
    (log : MeteoraDammSwap) (accounts : List IxAccount)
    (cached : Option DexPoolRecord) : Except String (Option TradeRecord) :=
  match accounts.head? with
  | none => .error "need meteora damm pool pubkey in swap log"
  | some pool_acc =>
    let pool_pubkey := pool_acc.pubkey
    match DexPoolRecord.from_meteora_damm_swap_accounts pool_pubkey accounts cached with
    | .error e => .error e
    | .ok cached_pool =>
      if !cached_pool.is_wsol_pool then
        -- only accept WSOL pair
        .ok none
      else
        match accounts[12]? with
        | none => .error "need trader pubkey in meteora damm swap log"
        | some trader_acc =>
          match accounts[5]? with
          | none => .error "need token x value in meteora damm swap log"
          | some token_a_vault =>
            match token_a_vault.post_amt.token with
            | none => .error "meteora damm token a vault should have balance"
            | some pool_token_a_amt =>
              match accounts[6]? with
              | none => .error "need token b value in meteora damm swap log"
              | some token_b_vault =>
                match token_b_vault.post_amt.token with
                | none => .error "meteora damm token b vault should have balance"
                | some pool_token_b_amt =>
                  match meteora_damm_user_source_token_mint accounts,
                        meteora_damm_user_dest_token_mint accounts with
                  | none, none =>
                    .error "meteora damm swap have no user source and destination token balance change"
                  | _, _ =>
                    let is_buy := meteora_damm_is_buy accounts
                    let (sol_amt, token_amt) := meteora_damm_amounts is_buy log
                    if sol_amt == 0 || token_amt == 0 then
                      .ok none
                    else
                      let is_token_a_sol := pool_token_a_amt.mint == WSOL_MINT
                      let (pool_token_amt, pool_sol_amt) :=
                        if is_token_a_sol then
                          (pool_token_b_amt.amt, pool_token_a_amt.amt)
                        else
                          (pool_token_a_amt.amt, pool_token_b_amt.amt)
                      .ok (some
                        { blk_ts := meta.blk_ts, slot := meta.slot,
                          txid := meta.txid, idx := meta.idx,
                          mint := cached_pool.token_mint,
                          decimals := cached_pool.token_decimals,
                          trader := trader_acc.pubkey, dex := .meteoraDamm,
                          pool := pool_pubkey, pool_token_amt, pool_sol_amt,
                          is_buy, sol_amt, token_amt })

end SolDexHub

namespace SolDexHub

/-- `cache/trade.rs`: `TradeRecord::from_raydium_amm_swap_base_in`. -/
def TradeRecord.from_raydium_amm_swap_base_in (meta : TxBaseMetaInfo)
    (log : SwapBaseInLog) (accounts : List IxAccount)
    (cached : Option DexPoolRecord) : Except String (Option TradeRecord) :=
  match accounts[1]? with
  | none => .error "need amm pubkey in swap base in log"
  | some pool_acc =>
    let amm_pubkey := pool_acc.pubkey
    match DexPoolRecord.from_raydium_amm_trade_accounts amm_pubkey accounts cached with
    | .error e => .error e
    | .ok cached_pool =>
      if !cached_pool.is_wsol_pool then
        -- only accept WSOL pair
        .ok none
      else
        match accounts.getLast? with
        | none => .error "need trader pubkey in swap base in log"
        | some trader_acc =>
          let coin_token_vault_idx := if accounts.length == 18 then 5 else 4
          let pc_token_vault_idx := if accounts.length == 18 then 6 else 5
          match accounts[coin_token_vault_idx]? with
          | none => .error "need coin token vault in raydium amm swap base in log"
          | some coin_token_vault =>
            match coin_token_vault.post_amt.token with
            | none => .error "coin token should have balance in raydium amm base in swap"
            | some coin_token_amt =>
              match accounts[pc_token_vault_idx]? with
              | none => .error "need pc token vault in raydium amm swap base in log"
              | some pc_token_vault =>
                match pc_token_vault.post_amt.token with
                | none => .error "pc token should have balance in raydium amm base in swap"
                | some pc_token_amt =>
                  let is_coin_token_sol := coin_token_amt.mint == WSOL_MINT
                  let is_buy := cached_pool.is_raydium_buy log.direction
                  let sol_amt := raydium_base_in_sol_amt cached_pool log
                  let token_amt := raydium_base_in_token_amt cached_pool log
                  if sol_amt == 0 || token_amt == 0 then
                    .ok none
                  else
                    let (pool_token_amt, pool_sol_amt) :=
                      if is_coin_token_sol then
                        (pc_token_amt.amt, coin_token_amt.amt)
                      else
                        (coin_token_amt.amt, pc_token_amt.amt)
                    .ok (some
                      { blk_ts := meta.blk_ts, slot := meta.slot,
                        txid := meta.txid, idx := meta.idx,
                        mint := cached_pool.token_mint,
                        decimals := cached_pool.token_decimals,
                        trader := trader_acc.pubkey, dex := .raydiumAmm,
                        pool := amm_pubkey, pool_sol_amt, pool_token_amt,
                        is_buy, sol_amt, token_amt })

/-- `cache/trade.rs`: `TradeRecord::from_raydium_amm_swap_base_out`. -/
def TradeRecord.from_raydium_amm_swap_base_out (meta : TxBaseMetaInfo)
    (log : SwapBaseOutLog) (accounts : List IxAccount)
    (cached : Option DexPoolRecord) : Except String (Option TradeRecord) :=
  match accounts[1]? with
  | none => .error "need amm pubkey in swap base out log"
  | some pool_acc =>
    let amm_pubkey := pool_acc.pubkey
    match DexPoolRecord.from_raydium_amm_trade_accounts amm_pubkey accounts cached with
    | .error e => .error e
    | .ok cached_pool =>
      if !cached_pool.is_wsol_pool then
        -- only accept WSOL pair
        .ok none
      else
        match accounts.getLast? with
        | none => .error "need trader pubkey in swap base out log"
        | some trader_acc =>
          let coin_token_vault_idx := if accounts.length == 18 then 5 else 4
          let pc_token_vault_idx := if accounts.length == 18 then 6 else 5
          match accounts[coin_token_vault_idx]? with
          | none => .error "need coin token vault in raydium amm swap base out log"
          | some coin_token_vault =>
            match coin_token_vault.post_amt.token with
            | none => .error "coin token should have balance in raydium amm base out swap"
            | some coin_token_amt =>
              match accounts[pc_token_vault_idx]? with
              | none => .error "need pc token vault in raydium amm swap base out log"
              | some pc_token_vault =>
                match pc_token_vault.post_amt.token with
                | none => .error "pc token should have balance in raydium amm base out swap"
                | some pc_token_amt =>
                  let is_coin_token_sol := coin_token_amt.mint == WSOL_MINT
                  let is_buy := cached_pool.is_raydium_buy log.direction
                  let sol_amt := raydium_base_out_sol_amt cached_pool log
                  let token_amt := raydium_base_out_token_amt cached_pool log
                  if sol_amt == 0 || token_amt == 0 then
                    .ok none
                  else
                    let (pool_token_amt, pool_sol_amt) :=
                      if is_coin_token_sol then
                        (pc_token_amt.amt, coin_token_amt.amt)
                      else
                        (coin_token_amt.amt, pc_token_amt.amt)
                    .ok (some
                      { blk_ts := meta.blk_ts, slot := meta.slot,
                        txid := meta.txid, idx := meta.idx,
                        mint := cached_pool.token_mint,
                        decimals := cached_pool.token_decimals,
                        trader := trader_acc.pubkey, dex := .raydiumAmm,
                        pool := amm_pubkey, pool_sol_amt, pool_token_amt,
                        is_buy, sol_amt, token_amt })

/-- `cache/trade.rs`: `TradeRecord::from_pumpfun_trade`. -/
def TradeRecord.from_pumpfun_trade (meta : TxBaseMetaInfo) (log : TradeEvent)
    (accounts : List IxAccount) (cached : Option DexPoolRecord) :
    Except String (Option TradeRecord) :=
  match accounts[3]? with
  | none => .error "need curve pubkey in pumpfun trade"
  | some pool_acc =>
    let curve_pubkey := pool_acc.pubkey
    match DexPoolRecord.from_pumpfun_trade_accounts accounts cached with
    | .error e => .error e
    | .ok cached_pool =>
      if !cached_pool.is_wsol_pool then
        -- only accept WSOL pair
        .ok none
      else
        match accounts[6]? with
        | none => .error "need trader pubkey in pumpfun trade"
        | some trader_acc =>
          let is_buy := log.is_buy
          let sol_amt := log.sol_amount
          let token_amt := log.token_amount
          let pool_sol_amt := log.real_sol_reserves
          let pool_token_amt := log.real_token_reserves
          if sol_amt == 0 || token_amt == 0 then
            .ok none
          else
            .ok (some
              { blk_ts := meta.blk_ts, slot := meta.slot, txid := meta.txid,
                idx := meta.idx, mint := cached_pool.token_mint,
                decimals := cached_pool.token_decimals,
                trader := trader_acc.pubkey, dex := .pumpfun,
                pool := curve_pubkey, pool_sol_amt, pool_token_amt,
                is_buy, sol_amt, token_amt })

end SolDexHub

namespace SolDexHub

/-! ## Shared KV queues (`cache/qn_req_body.rs`, `cache/dex_evt.rs`)

The two redis lists are modelled as Lean lists; `llen`/`rpush`/`ltrim` become
pure list operations (single-key redis operations are atomic, and every
claim below reads sequentially). -/

/-- `cache/qn_req_body.rs`: `MAX_QN_REQ_LEN`. -/
def MAX_QN_REQ_LEN : Nat := 50

/-- `cache/dex_evt.rs`: `MAX_EVENT_LEN`. -/
def MAX_EVENT_LEN : Nat := 50000

/-- `cache/qn_req_body.rs`: `rpush_qn_request` — `llen`, reject when the list
already holds `MAX_QN_REQ_LEN` entries, else `rpush` one body. -/
def rpush_qn_request (qn_requests : List String) (req : String) :
    Except String (List String) :=
  if qn_requests.length ≥ MAX_QN_REQ_LEN then
    .error "qn request queue larger than 50"
  else
    .ok (qn_requests ++ [req])

/-- `cache/qn_req_body.rs`: `ltrim_qn_requests` — `ltrim list:qn_requests len -1`. -/
def ltrim_qn_requests (qn_requests : List String) (len : Nat) : List String :=
  qn_requests.drop len

/-- `cache/dex_evt.rs`: `rpush_dex_evts` — `llen`, reject when the list
already holds `MAX_EVENT_LEN` entries, else `rpush` the whole batch (the
pre-push guard does not bound the batch itself). -/
def rpush_dex_evts (dex_events : List DexEvent) (events : List DexEvent) :
    Except String (List DexEvent) :=
  if dex_events.length ≥ MAX_EVENT_LEN then
    .error "trade queue larger than 50000"
  else
    .ok (dex_events ++ events)

/-- `cache/dex_evt.rs`: `ltrim_dex_evts` — `ltrim list:dex_events len -1`. -/
def ltrim_dex_evts (dex_events : List DexEvent) (len : Nat) : List DexEvent :=
  dex_events.drop len

/-- The ingress push as the HTTP handler observes it: a rejected push leaves
the list unchanged (the handler surfaces a soft error to the upstream). -/
def ingest_qn_request (qn_requests : List String) (req : String) : List String :=
  match rpush_qn_request qn_requests req with
  | .ok l => l
  | .error _ => qn_requests

/-- Any number of ingress pushes, starting from a given list state. -/
def ingest_qn_requests (qn_requests : List String) (reqs : List String) :
    List String :=
  reqs.foldl ingest_qn_request qn_requests

/-- Outcome of the `POST /sol_dex_stream` handler towards the upstream. -/
inductive StreamResponse where
  | okAck
  | softError
deriving DecidableEq, Repr

/-- Is `needle` a contiguous substring of `hay`? -/
def is_infix_chars (needle hay : List Char) : Bool :=
  match hay with
  | [] => needle.isEmpty
  | _ :: t => needle.isPrefixOf hay || is_infix_chars needle t

/-- Does the body contain the token `metadata`? -/
def contains_metadata (body : String) : Bool :=
  is_infix_chars "metadata".toList body.toList

/-- Modelled from the spec: the current `POST /sol_dex_stream` handler. The
handler that feeds `list:qn_requests` is missing from the source tree — the
`web/controller/qn_stream.rs` present there is a stale variant that
normalizes inline, never calls `rpush_qn_request`, and no longer type-checks
against `cache/trade.rs` — so this definition follows §4.D of the spec:
discard and acknowledge probe-pings (bodies without the token `metadata`);
otherwise push the raw body via `rpush_qn_request` (which checks
`len < 50`), answering a soft error when the queue is full. -/
def sol_dex_stream (body : String) (qn_requests : List String) :
    List String × StreamResponse :=
  if !contains_metadata body then
    (qn_requests, .okAck)
  else
    match rpush_qn_request qn_requests body with
    | .ok l => (l, .okAck)
    | .error _ => (qn_requests, .softError)

end SolDexHub

namespace SolDexHub

/-! ## Batch worker (`qn_req_processor.rs`) -/

/-- `meteora/mod.rs`: the Meteora DLMM program id. -/
def METEORA_DLMM_PROGRAM_ID : String :=
  "LBUZKhRxPF3XUpBCjp4YzTKgLccjZhTSDM9YuVaPwxo"

/-- Rust `str::starts_with`, decided on the character lists. -/
def starts_with_str (s pre : String) : Bool :=
  pre.toList.isPrefixOf s.toList

/-- `qn_req_processor.rs` lines 150-154: the filter predicate excluding
Meteora DLMM `initBinArray` instructions (instruction data prefix
`5N5iEh8c`). -/
def is_dlmm_init_bin_array_ix (it : ProgramInvocation) : Bool :=
  it.program_id == METEORA_DLMM_PROGRAM_ID &&
    starts_with_str it.instruction.data "5N5iEh8c"

/-- `qn_req_processor.rs` lines 147-155: the instruction list after
excluding Meteora DLMM `initBinArray` instructions. -/
def filtered_ixs (tx : Tx) : List ProgramInvocation :=
  tx.ixs.filter (fun it => !is_dlmm_init_bin_array_ix it)

/-- `qn_req_processor.rs` lines 156-161: the (log, instruction) pairs a
transaction contributes to normalization — `log[i]` is paired with the
`i`-th entry of the **filtered** instruction list, and logs whose paired
entry is missing are skipped. -/
def paired_logs (tx : Tx) : List (String × ProgramInvocation) :=
  tx.logs.enum.filterMap
    (fun p => ((filtered_ixs tx)[p.1]?).map (fun ix => (p.2, ix)))

/-- The pairing rule in the claim's words (for comparison with
`paired_logs`): pair `log[i]` with the transaction's **original** `ixs[i]`,
drop logs whose paired instruction is missing, and then exclude pairs whose
instruction is a Meteora DLMM `initBinArray` without re-pairing anything. -/
def claim_paired_logs (tx : Tx) : List (String × ProgramInvocation) :=
  (tx.logs.enum.filterMap
      (fun p => (tx.ixs[p.1]?).map (fun ix => (p.2, ix)))).filter
    (fun q => !is_dlmm_init_bin_array_ix q.2)

/-- One iteration of the batch worker (`qn_req_processor::start` loop body),
restricted to its effect on the two queues.

* `parse` stands for `serde_json::from_str::<QnSolDexDatahubWebhookReq>`
  restricted to the `txs` payload; `none` is a parse error, which the
  `try_collect` surfaces with `?`, aborting the iteration (worker restart,
  nothing trimmed).
* `normalize` stands for the per-transaction decode/normalize loop (lines
  142-426): `none` is a normalization error surfaced with `?` (restart,
  nothing trimmed), `some evts` the collected `all_events`.
* `snap` is the `lrange` snapshot; `arrivals` are bodies other handlers
  `rpush`ed between the snapshot and the `ltrim`.

Returns `none` when the iteration aborts with an error, otherwise the new
`(list:qn_requests, list:dex_events)` pair. -/
def qn_processor_iteration (parse : String → Option (List Tx))
    (normalize : List Tx → Option (List DexEvent))
    (snap arrivals : List String) (dex_events : List DexEvent) :
    Option (List String × List DexEvent) :=
  match snap.mapM parse with
  | none => none
  | some txss =>
    let webhook_req_len := snap.length
    let txs := txss.flatten
    if txs.isEmpty then
      -- `continue`: no events, no trim
      some (snap ++ arrivals, dex_events)
    else
      match normalize txs with
      | none => none
      | some all_events =>
        if all_events.length > 0 then
          match rpush_dex_evts dex_events all_events with
          | .error _ => none
          | .ok dex_events' =>
            some (ltrim_qn_requests (snap ++ arrivals) webhook_req_len,
                  dex_events')
        else
          -- `events_len == 0`: the guard skips both the push and the trim
          some (snap ++ arrivals, dex_events)

/-! ## Egress worker (`webhook/dex_evts.rs`) -/

/-- One iteration of `DexEvtWebhook::start`, restricted to its effect on
`list:dex_events`.  `snap` is the `lrange` snapshot, `arrivals` are events
pushed by the batch worker between the snapshot and the trim, and
`resp_status` is the HTTP status the downstream webhook answered with.  The
list is trimmed by the snapshot length exactly when the status is 200. -/
def egress_iteration (snap arrivals : List DexEvent) (resp_status : Nat) :
    List DexEvent :=
  if snap.isEmpty then
    snap ++ arrivals
  else if resp_status == 200 then
    ltrim_dex_evts (snap ++ arrivals) snap.length
  else
    snap ++ arrivals

end SolDexHub

namespace SolDexHub

/-! ## Byte-level decoders (`raydium/event.rs`, `pumpfun/event.rs`)

The transport decoders follow the `base64` crate's `STANDARD` engine
(canonical padding required, non-zero trailing bits rejected) and the `bs58`
crate (Bitcoin alphabet).  Rust slicing panics (`bytes[0]` on an empty
vector, `&bytes[8..]` / `&bytes[..8]` on short ones) and the `unreachable!`
in `LogType::from_u8` are modelled as a distinct `panicked` outcome: a panic
is a real behaviour of the program, not an `Err`. -/

/-- Value of one base64 alphabet character (`STANDARD` alphabet). -/
def base64_char_val (c : Char) : Option Nat :=
  if 'A' ≤ c ∧ c ≤ 'Z' then some (c.toNat - 65)
  else if 'a' ≤ c ∧ c ≤ 'z' then some (c.toNat - 97 + 26)
  else if '0' ≤ c ∧ c ≤ '9' then some (c.toNat - 48 + 52)
  else if c = '+' then some 62
  else if c = '/' then some 63
  else none

/-- Decode base64 text four characters at a time; padding may only appear in
the final quadruple, and non-zero trailing bits are rejected (the `STANDARD`
engine's behaviour). -/
def base64_decode_chars : List Char → Option (List Nat)
  | [] => some []
  | c0 :: c1 :: c2 :: c3 :: rest => do
    let v0 ← base64_char_val c0
    let v1 ← base64_char_val c1
    if c2 = '=' then
      if c3 = '=' ∧ rest = [] ∧ v1 % 16 = 0 then
        some [v0 * 4 + v1 / 16]
      else none
    else do
      let v2 ← base64_char_val c2
      if c3 = '=' then
        if rest = [] ∧ v2 % 4 = 0 then
          some [v0 * 4 + v1 / 16, v1 % 16 * 16 + v2 / 4]
        else none
      else do
        let v3 ← base64_char_val c3
        let tail ← base64_decode_chars rest
        some ((v0 * 4 + v1 / 16) :: (v1 % 16 * 16 + v2 / 4) ::
              (v2 % 4 * 64 + v3) :: tail)
  | _ => none

/-- `STANDARD.decode`: base64 decoding of a string to bytes. -/
def base64_decode (s : String) : Option (List Nat) :=
  base64_decode_chars s.toList

/-- The Bitcoin base58 alphabet used by the `bs58` crate. -/
def b58_alphabet : List Char :=
  "123456789ABCDEFGHJKLMNPQRSTUVWXYZabcdefghijkmnopqrstuvwxyz".toList

/-- Value of one base58 character. -/
def b58_char_val (c : Char) : Option Nat := b58_alphabet.indexOf? c

/-- Big-endian byte expansion, fuelled so that it reduces by iota (the fuel
strictly dominates the number of base-256 digits). -/
def nat_to_bytes_be_go : Nat → Nat → List Nat
  | 0, _ => []
  | fuel + 1, n =>
    if n = 0 then [] else nat_to_bytes_be_go fuel (n / 256) ++ [n % 256]

/-- Big-endian byte expansion of a natural number (empty for `0`). -/
def nat_to_bytes_be (n : Nat) : List Nat := nat_to_bytes_be_go n n

/-- `bs58::decode(..).into_vec()`: base58 decoding of a string to bytes
(leading `1`s become leading zero bytes). -/
def bs58_decode (s : String) : Option (List Nat) := do
  let vals ← s.toList.mapM b58_char_val
  let zeros := (vals.takeWhile (· == 0)).length
  let value := vals.foldl (fun acc v => acc * 58 + v) 0
  some (List.replicate zeros 0 ++ nat_to_bytes_be value)

/-- Outcome of running one decoder on an arbitrary log string: a decoded
event, a recoverable error (`anyhow::Error`), or a Rust panic. -/
inductive DecodeOutcome (α : Type) where
  | ok (a : α)
  | err
  | panicked
deriving DecidableEq, Repr

/-- Is the outcome a panic? -/
def DecodeOutcome.isPanicked {α : Type} : DecodeOutcome α → Bool
  | .panicked => true
  | _ => false

/-- Little-endian value of a byte list. -/
def le_val : List Nat → Nat
  | [] => 0
  | b :: rest => b + 256 * le_val rest

/-- Read `k` little-endian bytes at `off` as a number (`bincode`/borsh
fixed-width integer); `none` when the input is too short. -/
def read_le (bytes : List Nat) (off k : Nat) : Option Nat :=
  if off + k ≤ bytes.length then some (le_val ((bytes.drop off).take k))
  else none

/-- Read `k` raw bytes at `off`. -/
def read_bytes (bytes : List Nat) (off k : Nat) : Option (List Nat) :=
  if off + k ≤ bytes.length then some ((bytes.drop off).take k) else none

/-- Two's-complement reading of a 64-bit little-endian value. -/
def signed64 (v : Nat) : Int :=
  if v < 2 ^ 63 then (v : Int) else (v : Int) - 2 ^ 64

/-- Read a borsh/bincode `bool` byte: `0`, `1`, or a decode error. -/
def read_bool (bytes : List Nat) (off : Nat) : Option Bool :=
  match read_le bytes off 1 with
  | some 0 => some false
  | some 1 => some true
  | _ => none

/-- `bincode::deserialize::<InitLog>` (fixed little-endian layout; trailing
bytes are ignored). -/
def decode_init_log (bytes : List Nat) : Option InitLog := do
  let log_type ← read_le bytes 0 1
  let time ← read_le bytes 1 8
  let pc_decimals ← read_le bytes 9 1
  let coin_decimals ← read_le bytes 10 1
  let pc_lot_size ← read_le bytes 11 8
  let coin_lot_size ← read_le bytes 19 8
  let pc_amount ← read_le bytes 27 8
  let coin_amount ← read_le bytes 35 8
  let market ← read_bytes bytes 43 32
  some { log_type, time, pc_decimals, coin_decimals, pc_lot_size,
         coin_lot_size, pc_amount, coin_amount, market }

/-- `bincode::deserialize::<DepositLog>`. -/
def decode_deposit_log (bytes : List Nat) : Option DepositLog := do
  let log_type ← read_le bytes 0 1
  let max_coin ← read_le bytes 1 8
  let max_pc ← read_le bytes 9 8
  let base ← read_le bytes 17 8
  let pool_coin ← read_le bytes 25 8
  let pool_pc ← read_le bytes 33 8
  let pool_lp ← read_le bytes 41 8
  let calc_pnl_x ← read_le bytes 49 16
  let calc_pnl_y ← read_le bytes 65 16
  let deduct_coin ← read_le bytes 81 8
  let deduct_pc ← read_le bytes 89 8
  let mint_lp ← read_le bytes 97 8
  some { log_type, max_coin, max_pc, base, pool_coin, pool_pc, pool_lp,
         calc_pnl_x, calc_pnl_y, deduct_coin, deduct_pc, mint_lp }

/-- `bincode::deserialize::<WithdrawLog>`. -/
def decode_withdraw_log (bytes : List Nat) : Option WithdrawLog := do
  let log_type ← read_le bytes 0 1
  let withdraw_lp ← read_le bytes 1 8
  let user_lp ← read_le bytes 9 8
  let pool_coin ← read_le bytes 17 8
  let pool_pc ← read_le bytes 25 8
  let pool_lp ← read_le bytes 33 8
  let calc_pnl_x ← read_le bytes 41 16
  let calc_pnl_y ← read_le bytes 57 16
  let out_coin ← read_le bytes 73 8
  let out_pc ← read_le bytes 81 8
  some { log_type, withdraw_lp, user_lp, pool_coin, pool_pc, pool_lp,
         calc_pnl_x, calc_pnl_y, out_coin, out_pc }

/-- `bincode::deserialize::<SwapBaseInLog>`. -/
def decode_swap_base_in_log (bytes : List Nat) : Option SwapBaseInLog := do
  let log_type ← read_le bytes 0 1
  let amount_in ← read_le bytes 1 8
  let minimum_out ← read_le bytes 9 8
  let direction ← read_le bytes 17 8
  let user_source ← read_le bytes 25 8
  let pool_coin ← read_le bytes 33 8
  let pool_pc ← read_le bytes 41 8
  let out_amount ← read_le bytes 49 8
  some { log_type, amount_in, minimum_out, direction, user_source,
         pool_coin, pool_pc, out_amount }

/-- `bincode::deserialize::<SwapBaseOutLog>`. -/
def decode_swap_base_out_log (bytes : List Nat) : Option SwapBaseOutLog := do
  let log_type ← read_le bytes 0 1
  let max_in ← read_le bytes 1 8
  let amount_out ← read_le bytes 9 8
  let direction ← read_le bytes 17 8
  let user_source ← read_le bytes 25 8
  let pool_coin ← read_le bytes 33 8
  let pool_pc ← read_le bytes 41 8
  let deduct_in ← read_le bytes 49 8
  some { log_type, max_in, amount_out, direction, user_source, pool_coin,
         pool_pc, deduct_in }

/-- `raydium/event.rs`: the `match LogType::from_u8(bytes[0])` dispatch of
`RayLogs::decode`; a type byte outside `0..=4` hits `unreachable!`, a Rust
panic. -/
def ray_dispatch (b : Nat) (bytes : List Nat) : DecodeOutcome RayLogs :=
  if b == 0 then
    match decode_init_log bytes with
    | some l => .ok (.init l)
    | none => .err
  else if b == 1 then
    match decode_deposit_log bytes with
    | some l => .ok (.deposit l)
    | none => .err
  else if b == 2 then
    match decode_withdraw_log bytes with
    | some l => .ok (.withdraw l)
    | none => .err
  else if b == 3 then
    match decode_swap_base_in_log bytes with
    | some l => .ok (.swapBaseIn l)
    | none => .err
  else if b == 4 then
    match decode_swap_base_out_log bytes with
    | some l => .ok (.swapBaseOut l)
    | none => .err
  else
    .panicked

/-- `raydium/event.rs`: `RayLogs::decode`.  `bytes[0]` on an empty decode
result is a Rust panic (index out of bounds). -/
def RayLogs.decode (log : String) : DecodeOutcome RayLogs :=
  match base64_decode log with
  | none => .err
  | some bytes =>
    match bytes.head? with
    | none => .panicked
    | some b => ray_dispatch b bytes

end SolDexHub

namespace SolDexHub

/-- Split off the first `k` bytes; `none` when the input is shorter. -/
def take_bytes (k : Nat) (bytes : List Nat) :
    Option (List Nat × List Nat) :=
  if k ≤ bytes.length then some (bytes.take k, bytes.drop k) else none

/-- `borsh1::try_from_slice_unchecked::<TradeEvent>` (fixed little-endian
layout, one `bool` byte; trailing bytes are ignored). -/
def decode_trade_event (bytes : List Nat) : Option TradeEvent := do
  let discriminator ← read_le bytes 0 8
  let mint ← read_bytes bytes 8 32
  let sol_amount ← read_le bytes 40 8
  let token_amount ← read_le bytes 48 8
  let is_buy ← read_bool bytes 56
  let user ← read_bytes bytes 57 32
  let ts ← read_le bytes 89 8
  let virtual_sol_reserves ← read_le bytes 97 8
  let virtual_token_reserves ← read_le bytes 105 8
  let real_sol_reserves ← read_le bytes 113 8
  let real_token_reserves ← read_le bytes 121 8
  some { discriminator, mint, sol_amount, token_amount, is_buy, user,
         timestamp := signed64 ts, virtual_sol_reserves,
         virtual_token_reserves, real_sol_reserves, real_token_reserves }

/-- `borsh1::try_from_slice_unchecked::<CreateEvent>` (three borsh strings —
`u32` length followed by that many bytes — then three 32-byte pubkeys). -/
def decode_create_event (bytes : List Nat) : Option CreateEvent := do
  let (d, r1) ← take_bytes 8 bytes
  let (name_len, r2) ← take_bytes 4 r1
  let (name, r3) ← take_bytes (le_val name_len) r2
  let (symbol_len, r4) ← take_bytes 4 r3
  let (symbol, r5) ← take_bytes (le_val symbol_len) r4
  let (uri_len, r6) ← take_bytes 4 r5
  let (uri, r7) ← take_bytes (le_val uri_len) r6
  let (mint, r8) ← take_bytes 32 r7
  let (bonding_curve, r9) ← take_bytes 32 r8
  let (user, _) ← take_bytes 32 r9
  some { discriminator := le_val d, name, symbol, uri, mint, bonding_curve,
         user }

/-- `borsh1::try_from_slice_unchecked::<CompleteEvent>`. -/
def decode_complete_event (bytes : List Nat) : Option CompleteEvent := do
  let discriminator ← read_le bytes 0 8
  let user ← read_bytes bytes 8 32
  let mint ← read_bytes bytes 40 32
  let bonding_curve ← read_bytes bytes 72 32
  let ts ← read_le bytes 104 8
  some { discriminator, user, mint, bonding_curve, timestamp := signed64 ts }

/-- `borsh1::try_from_slice_unchecked::<SetParamsEvent>`. -/
def decode_set_params_event (bytes : List Nat) : Option SetParamsEvent := do
  let discriminator ← read_le bytes 0 8
  let fee_recipient ← read_bytes bytes 8 32
  let initial_virtual_token_reserves ← read_le bytes 40 8
  let initial_virtual_sol_reserves ← read_le bytes 48 8
  let initial_real_token_reserves ← read_le bytes 56 8
  let token_total_supply ← read_le bytes 64 8
  let fee_basis_points ← read_le bytes 72 8
  some { discriminator, fee_recipient, initial_virtual_token_reserves,
         initial_virtual_sol_reserves, initial_real_token_reserves,
         token_total_supply, fee_basis_points }

/-- `pumpfun/event.rs`: the `match &bytes[..8]` discriminator dispatch of
`PumpFunEvents::from_cpi_log` over `rest = &bytes[8..]`; the slice itself
panics when `rest` holds fewer than 8 bytes, and an unknown discriminator is
a recoverable `bail!` error. -/
def pumpfun_dispatch (rest : List Nat) : DecodeOutcome PumpFunEvents :=
  if rest.length < 8 then .panicked
  else if rest.take 8 == [189, 219, 127, 211, 78, 230, 97, 238] then
    match decode_trade_event rest with
    | some e => .ok (.trade e)
    | none => .err
  else if rest.take 8 == [27, 114, 169, 77, 222, 235, 99, 118] then
    match decode_create_event rest with
    | some e => .ok (.create e)
    | none => .err
  else if rest.take 8 == [95, 114, 97, 156, 212, 46, 152, 8] then
    match decode_complete_event rest with
    | some e => .ok (.complete e)
    | none => .err
  else if rest.take 8 == [223, 195, 159, 246, 62, 48, 143, 131] then
    match decode_set_params_event rest with
    | some e => .ok (.setParams e)
    | none => .err
  else
    .err

/-- `pumpfun/event.rs`: `PumpFunEvents::from_cpi_log`.  After base58
decoding, `&bytes[8..]` panics when fewer than 8 bytes were decoded
(slicing out of bounds); the remainder goes to the discriminator
dispatch. -/
def PumpFunEvents.from_cpi_log (log : String) : DecodeOutcome PumpFunEvents :=
  match bs58_decode log with
  | none => .err
  | some bytes =>
    if bytes.length < 8 then .panicked
    else pumpfun_dispatch (bytes.drop 8)

end SolDexHub

namespace SolDexHub

/-! ## Shared concrete sample values (used by witnesses and counterexamples) -/

/-- A concrete decoded event, used to populate queues in concrete runs. -/
def sampleEvent : DexEvent :=
  .pumpfunComplete
    { blk_ts := 1700000000, slot := 1, txid := "tx0", idx := 0,
      user := "UserPk111", mint := "MintPk111", bonding_curve := "CurvePk111" }

/-- A concrete WSOL-quoted pool record. -/
def samplePool : DexPoolRecord :=
  { addr := "PoolAddr111", dex := .raydiumAmm, is_complete := false,
    mint_a := "TokenMintAaa", mint_b := WSOL_MINT, decimals_a := 6,
    decimals_b := 9 }

/-- C4: in every egress-worker iteration with a non-empty snapshot of `n`
decoded events, `list:dex_events` is prefix-trimmed by `n` (leaving exactly
the events that arrived after the snapshot) iff the downstream POST returned
status exactly 200; any other status leaves the list unchanged, so the next
iteration retries the same payload. -/
theorem egress_trim_iff_200 (snap arrivals : List DexEvent)
    (resp_status : Nat) (h : snap ≠ []) :
    (resp_status = 200 →
      egress_iteration snap arrivals resp_status = arrivals) ∧
    (resp_status ≠ 200 →
      egress_iteration snap arrivals resp_status = snap ++ arrivals) := by
  constructor <;> intro hs
  · simp [egress_iteration, ltrim_dex_evts, h, hs, List.drop_left]
  · simp [egress_iteration, h, hs]

/-- Witness for `egress_trim_iff_200` at a singleton snapshot. -/
theorem egress_trim_iff_200_witness :
    ([sampleEvent] : List DexEvent) ≠ [] ∧
    egress_iteration [sampleEvent] [] 200 = [] ∧
    egress_iteration [sampleEvent] [] 500 = [sampleEvent] ++ [] :=
  ⟨by simp,
   (egress_trim_iff_200 [sampleEvent] [] 200 (by simp)).1 rfl,
   (egress_trim_iff_200 [sampleEvent] [] 500 (by simp)).2 (by omega)⟩

/-- C3: for every inbound webhook body containing the token `metadata`, the
`POST /sol_dex_stream` handler appends the raw body to `list:qn_requests`
when the list holds fewer than 50 entries and answers a soft error when it
is full; probe-ping bodies (no `metadata` token) are discarded and
acknowledged.  (The handler is modelled from the spec, see
`sol_dex_stream`.) -/
theorem sol_dex_stream_ingress_spec (body : String)
    (qn_requests : List String) :
    (contains_metadata body = false →
      sol_dex_stream body qn_requests = (qn_requests, .okAck)) ∧
    (contains_metadata body = true → qn_requests.length < 50 →
      sol_dex_stream body qn_requests = (qn_requests ++ [body], .okAck)) ∧
    (contains_metadata body = true → 50 ≤ qn_requests.length →
      sol_dex_stream body qn_requests = (qn_requests, .softError)) := by
  refine ⟨fun h1 => ?_, fun h1 h2 => ?_, fun h1 h2 => ?_⟩ <;>
    simp [sol_dex_stream, rpush_qn_request, MAX_QN_REQ_LEN, h1]
  · simp [Nat.not_le.mpr h2]
  · simp [h2]

/-- Witness for `sol_dex_stream_ingress_spec`: a probe-ping and a real body
against an empty queue. -/
theorem sol_dex_stream_ingress_spec_witness :
    contains_metadata "ping" = false ∧
    sol_dex_stream "ping" [] = ([], .okAck) ∧
    contains_metadata "x metadata y" = true ∧
    sol_dex_stream "x metadata y" [] = ([] ++ ["x metadata y"], .okAck) :=
  ⟨by decide, (sol_dex_stream_ingress_spec "ping" []).1 (by decide),
   by decide,
   (sol_dex_stream_ingress_spec "x metadata y" []).2.1 (by decide) (by decide)⟩

end SolDexHub

namespace SolDexHub

/-- Helper: the ingress push keeps `list:qn_requests` at or under 50. -/
theorem ingest_qn_requests_length_le (qn : List String)
    (h : qn.length ≤ 50) (reqs : List String) :
    (ingest_qn_requests qn reqs).length ≤ 50 := by
  induction reqs generalizing qn with
  | nil => simpa [ingest_qn_requests]
  | cons r rest ih =>
    have step : (ingest_qn_request qn r).length ≤ 50 := by
      unfold ingest_qn_request rpush_qn_request MAX_QN_REQ_LEN
      by_cases hc : qn.length ≥ 50
      · simp only [if_pos hc]
        exact h
      · simp only [if_neg hc, List.length_append]
        simp only [Nat.not_le] at hc
        simp
        omega
    simpa [ingest_qn_requests, List.foldl_cons] using
      ih (ingest_qn_request qn r) step

/-- C7 (amended): the ingress queue never exceeds 50 entries under any
sequence of pushes; the event queue guard only checks the length **before**
a push, so a successful `rpush_dex_evts` starts below 50,000 but may end up
to a whole batch above it (the 50,000 bound itself is not an invariant). -/
theorem queue_bounds_amended :
    (∀ reqs : List String, (ingest_qn_requests [] reqs).length ≤ 50) ∧
    (∀ q evts res : List DexEvent, rpush_dex_evts q evts = .ok res →
      q.length < 50000 ∧ res.length = q.length + evts.length) := by
  constructor
  · intro reqs
    exact ingest_qn_requests_length_le [] (by simp) reqs
  · intro q evts res h
    unfold rpush_dex_evts MAX_EVENT_LEN at h
    split at h
    · exact absurd h (by simp)
    · next hlt =>
      simp only [Nat.not_le] at hlt
      cases h
      simp [List.length_append]
      omega

/-- C7 counterexample: starting from an empty event queue, one batch of
49,999 events followed by one batch of 2 events — both pushes succeed — ends
with `list:dex_events` holding 50,001 entries, violating the claimed
`len(list:dex_events) ≤ 50,000`-or-error property. -/
theorem queue_bounds_counterexample :
    rpush_dex_evts [] (List.replicate 49999 sampleEvent) =
      .ok (List.replicate 49999 sampleEvent) ∧
    rpush_dex_evts (List.replicate 49999 sampleEvent)
        [sampleEvent, sampleEvent] =
      .ok (List.replicate 49999 sampleEvent ++ [sampleEvent, sampleEvent]) ∧
    (List.replicate 49999 sampleEvent ++
        [sampleEvent, sampleEvent]).length = 50001 := by
  have hlen : (List.replicate 49999 sampleEvent).length = 49999 :=
    List.length_replicate 49999 sampleEvent
  refine ⟨?_, ?_, ?_⟩
  · unfold rpush_dex_evts MAX_EVENT_LEN
    rw [if_neg (by simp), List.nil_append]
  · unfold rpush_dex_evts MAX_EVENT_LEN
    rw [if_neg (by rw [hlen]; omega)]
  · rw [List.length_append, hlen]
    rfl

/-- Witness for `queue_bounds_amended` at concrete queues. -/
theorem queue_bounds_amended_witness :
    (ingest_qn_requests [] ["b1", "b2"]).length ≤ 50 ∧
    (([] : List DexEvent).length < 50000 ∧
      ([sampleEvent] : List DexEvent).length =
        ([] : List DexEvent).length + [sampleEvent].length) :=
  ⟨queue_bounds_amended.1 ["b1", "b2"],
   queue_bounds_amended.2 [] [sampleEvent] [sampleEvent] (by rfl)⟩

/-- C10: `is_raydium_buy` and the Raydium amount selection branch only on
`direction == 1`: every direction other than `1` behaves exactly like the
documented `0` (coin→pc). -/
theorem raydium_direction_branch_on_one (pool : DexPoolRecord)
    (d1 d2 : Nat) (h1 : d1 ≠ 1) (h2 : d2 ≠ 1) :
    (pool.is_raydium_buy d1 = pool.is_raydium_buy d2 ∧
     pool.is_raydium_buy d1 = pool.is_raydium_buy 0) ∧
    (∀ log : SwapBaseInLog,
      raydium_base_in_sol_amt pool { log with direction := d1 } =
        raydium_base_in_sol_amt pool { log with direction := 0 } ∧
      raydium_base_in_token_amt pool { log with direction := d1 } =
        raydium_base_in_token_amt pool { log with direction := 0 }) ∧
    (∀ log : SwapBaseOutLog,
      raydium_base_out_sol_amt pool { log with direction := d1 } =
        raydium_base_out_sol_amt pool { log with direction := 0 } ∧
      raydium_base_out_token_amt pool { log with direction := d1 } =
        raydium_base_out_token_amt pool { log with direction := 0 }) := by
  have e1 : (d1 == 1) = false := by simp [h1]
  have e2 : (d2 == 1) = false := by simp [h2]
  refine ⟨⟨?_, ?_⟩, fun log => ⟨?_, ?_⟩, fun log => ⟨?_, ?_⟩⟩ <;>
    simp [DexPoolRecord.is_raydium_buy, raydium_base_in_sol_amt,
      raydium_base_in_token_amt, raydium_base_out_sol_amt,
      raydium_base_out_token_amt, e1, e2]

/-- Witness for `raydium_direction_branch_on_one` at directions 0 and 7. -/
theorem raydium_direction_branch_on_one_witness :
    (0 : Nat) ≠ 1 ∧ (7 : Nat) ≠ 1 ∧
    samplePool.is_raydium_buy 0 = samplePool.is_raydium_buy 7 :=
  ⟨by decide, by decide,
   (raydium_direction_branch_on_one samplePool 0 7 (by decide)
     (by decide)).1.1⟩

end SolDexHub

namespace SolDexHub

/-- A concrete Meteora DLMM `initBinArray` instruction. -/
def binArrayIx : ProgramInvocation :=
  { program_id := METEORA_DLMM_PROGRAM_ID,
    instruction := { accounts := [], data := "5N5iEh8cKzz", index := 0 } }

/-- A concrete non-`initBinArray` instruction. -/
def plainIx : ProgramInvocation :=
  { program_id := METEORA_DLMM_PROGRAM_ID,
    instruction := { accounts := [], data := "AbCd", index := 1 } }

/-- A concrete transaction whose first instruction is an `initBinArray`. -/
def txWithBinArray : Tx :=
  { blk_ts := 1700000000, slot := 1, signature := "sig1",
    logs := ["log0", "log1"], ixs := [binArrayIx, plainIx] }

/-- C6 counterexample: on a transaction whose instruction 0 is a Meteora
DLMM `initBinArray`, the worker pairs `log[0]` with the *next surviving*
instruction (`ixs[1]`), whereas the claim's rule — pair `log[i]` with the
original `ixs[i]`, then drop `initBinArray` pairs — would keep
`(log[1], ixs[1])` instead: the exclusion *does* change which instruction
the remaining logs are paired with. -/
theorem paired_logs_counterexample :
    paired_logs txWithBinArray = [("log0", plainIx)] ∧
    claim_paired_logs txWithBinArray = [("log1", plainIx)] ∧
    paired_logs txWithBinArray ≠ claim_paired_logs txWithBinArray := by
  refine ⟨by decide, by decide, by decide⟩

/-- C6 (amended): the worker pairs `log[i]` positionally with the `i`-th
entry of the instruction list **after** removing Meteora DLMM `initBinArray`
instructions, dropping logs with no paired entry; when a transaction has no
`initBinArray` instruction this coincides with the claim's rule (pair with
the original `ixs[i]`), but each excluded instruction shifts the pairing of
all later logs down by one. -/
theorem paired_logs_no_bin_array_agreement (tx : Tx)
    (h : ∀ ix ∈ tx.ixs, is_dlmm_init_bin_array_ix ix = false) :
    paired_logs tx = claim_paired_logs tx := by
  have hf : filtered_ixs tx = tx.ixs := by
    unfold filtered_ixs
    apply List.filter_eq_self.mpr
    intro a ha
    simp [h a ha]
  unfold paired_logs claim_paired_logs
  rw [hf]
  symm
  apply List.filter_eq_self.mpr
  intro p hp
  rw [List.mem_filterMap] at hp
  obtain ⟨q, _, hmap⟩ := hp
  cases hx : tx.ixs[q.1]? with
  | none => rw [hx] at hmap; simp at hmap
  | some ix =>
    rw [hx] at hmap
    simp only [Option.map_some'] at hmap
    have hpix : p.2 = ix := by
      cases hmap
      rfl
    have hmem : ix ∈ tx.ixs := List.getElem?_mem hx
    rw [hpix]
    simp [h ix hmem]

/-- A concrete transaction with a single plain instruction. -/
def plainTx : Tx :=
  { blk_ts := 0, slot := 0, signature := "s", logs := ["l0"],
    ixs := [plainIx] }

/-- Witness for `paired_logs_no_bin_array_agreement` on a transaction with
one plain instruction. -/
theorem paired_logs_no_bin_array_agreement_witness :
    (∀ ix ∈ plainTx.ixs, is_dlmm_init_bin_array_ix ix = false) ∧
    paired_logs plainTx = claim_paired_logs plainTx :=
  ⟨by
      intro ix hix
      simp only [plainTx] at hix
      rw [List.mem_singleton] at hix
      subst hix
      rfl,
   paired_logs_no_bin_array_agreement plainTx (by
      intro ix hix
      simp only [plainTx] at hix
      rw [List.mem_singleton] at hix
      subst hix
      rfl)⟩

end SolDexHub

namespace SolDexHub

/-- A concrete parse outcome: every body parses to one transaction that
carries no logs (realizable: a valid webhook body whose single transaction
holds no decodable DEX instruction). -/
def parse_one_tx : String → Option (List Tx) := fun _ =>
  some [{ blk_ts := 0, slot := 1, signature := "s", logs := [], ixs := [] }]

/-- A concrete normalization outcome: no events produced. -/
def normalize_to_nothing : List Tx → Option (List DexEvent) := fun _ => some []

/-- C2 counterexample: an iteration that snapshots one body, parses it, and
produces zero normalized events does **not** trim `list:qn_requests` — the
`events_len > 0` guard in `qn_req_processor::start` skips the `ltrim`
together with the push, so the queue still holds the consumed snapshot,
contradicting "ends by trimming exactly the first n entries ... regardless
of how many normalized events the snapshot produced". -/
theorem qn_iteration_trim_counterexample :
    qn_processor_iteration parse_one_tx normalize_to_nothing ["body"] [] [] =
      some (["body"], []) ∧
    (["body"] : List String) ≠ ltrim_qn_requests (["body"] ++ []) 1 := by
  exact ⟨by rfl, by decide⟩

/-- C2 (amended): a successful batch-worker iteration over a snapshot of `n`
bodies either produced at least one normalized event — and then trims
exactly the first `n` entries, leaving precisely the bodies that arrived
after the snapshot — or produced none (or only transaction-free bodies) and
leaves `list:qn_requests` untouched; iterations that abort (parse error,
normalization error, full event queue) trim nothing. -/
theorem qn_iteration_trim_amended (parse : String → Option (List Tx))
    (normalize : List Tx → Option (List DexEvent))
    (snap arrivals : List String) (dex_events : List DexEvent)
    (q' : List String) (d' : List DexEvent)
    (h : qn_processor_iteration parse normalize snap arrivals dex_events =
      some (q', d')) :
    (q' = arrivals ∧ dex_events.length < d'.length) ∨
    (q' = snap ++ arrivals ∧ d' = dex_events) := by
  unfold qn_processor_iteration at h
  cases hp : snap.mapM parse with
  | none => rw [hp] at h; exact absurd h (by simp)
  | some txss =>
    rw [hp] at h
    simp only at h
    by_cases he : txss.flatten.isEmpty
    · rw [if_pos he] at h
      cases h
      exact Or.inr ⟨rfl, rfl⟩
    · rw [if_neg he] at h
      cases hn : normalize txss.flatten with
      | none => rw [hn] at h; exact absurd h (by simp)
      | some all_events =>
        rw [hn] at h
        simp only at h
        by_cases hl : all_events.length > 0
        · rw [if_pos hl] at h
          unfold rpush_dex_evts at h
          by_cases hq : dex_events.length ≥ MAX_EVENT_LEN
          · rw [if_pos hq] at h
            exact absurd h (by simp)
          · rw [if_neg hq] at h
            simp only at h
            cases h
            refine Or.inl ⟨?_, ?_⟩
            · unfold ltrim_qn_requests
              exact List.drop_left snap arrivals
            · rw [List.length_append]
              omega
        · rw [if_neg hl] at h
          cases h
          exact Or.inr ⟨rfl, rfl⟩

/-- Witness for `qn_iteration_trim_amended`: the zero-event iteration from
the counterexample input lands in the "queue untouched" disjunct. -/
theorem qn_iteration_trim_amended_witness :
    qn_processor_iteration parse_one_tx normalize_to_nothing ["body"] [] [] =
      some (["body"], []) ∧
    ((["body"] : List String) = [] ∧
        ([] : List DexEvent).length < ([] : List DexEvent).length ∨
      (["body"] : List String) = ["body"] ++ [] ∧
        ([] : List DexEvent) = []) :=
  ⟨by rfl,
   qn_iteration_trim_amended parse_one_tx normalize_to_nothing
     ["body"] [] [] ["body"] [] (by rfl)⟩

end SolDexHub

namespace SolDexHub

/-- C5 counterexample: the cited decoders are not total.  `RayLogs::decode`
panics on `"BQ=="` (base64 of the single byte `5`: `LogType::from_u8`
reaches `unreachable!`) and on `""` (empty decode, `bytes[0]` out of
bounds); `PumpFunEvents::from_cpi_log` panics on `""` (`&bytes[8..]` on an
empty vector).  None of these returns a recoverable `DecodeError`. -/
theorem decoders_panic_counterexample :
    RayLogs.decode "BQ==" = .panicked ∧
    RayLogs.decode "" = .panicked ∧
    PumpFunEvents.from_cpi_log "" = .panicked :=
  ⟨rfl, rfl, rfl⟩

/-- C5 (amended): the cited decoders return a decoded event or a recoverable
error — never a panic — on every input **except** the truncated or
unknown-type payloads on which they panic: `RayLogs::decode` panics exactly
when the base64 payload is empty or its type byte is outside `0..=4`, and
`PumpFunEvents::from_cpi_log` panics exactly when the base58 payload is
shorter than 16 bytes; malformed transport encodings and unknown
discriminators are recoverable errors. -/
theorem decoders_total_on_wellformed :
    (∀ s, base64_decode s = none → RayLogs.decode s = .err) ∧
    (∀ s b rest, base64_decode s = some (b :: rest) → b < 5 →
      (RayLogs.decode s).isPanicked = false) ∧
    (∀ s, bs58_decode s = none → PumpFunEvents.from_cpi_log s = .err) ∧
    (∀ s bytes, bs58_decode s = some bytes → 16 ≤ bytes.length →
      (PumpFunEvents.from_cpi_log s).isPanicked = false) := by
  have hray : ∀ b bytes, b < 5 →
      (ray_dispatch b bytes).isPanicked = false := by
    intro b bytes hb
    interval_cases b
    · cases hx : decode_init_log bytes <;>
        simp [ray_dispatch, hx, DecodeOutcome.isPanicked]
    · cases hx : decode_deposit_log bytes <;>
        simp [ray_dispatch, hx, DecodeOutcome.isPanicked]
    · cases hx : decode_withdraw_log bytes <;>
        simp [ray_dispatch, hx, DecodeOutcome.isPanicked]
    · cases hx : decode_swap_base_in_log bytes <;>
        simp [ray_dispatch, hx, DecodeOutcome.isPanicked]
    · cases hx : decode_swap_base_out_log bytes <;>
        simp [ray_dispatch, hx, DecodeOutcome.isPanicked]
  have hpf : ∀ rest : List Nat, 8 ≤ rest.length →
      (pumpfun_dispatch rest).isPanicked = false := by
    intro rest hr
    unfold pumpfun_dispatch
    rw [if_neg (by omega)]
    split
    · cases decode_trade_event rest <;> simp [DecodeOutcome.isPanicked]
    · split
      · cases decode_create_event rest <;> simp [DecodeOutcome.isPanicked]
      · split
        · cases decode_complete_event rest <;>
            simp [DecodeOutcome.isPanicked]
        · split
          · cases decode_set_params_event rest <;>
              simp [DecodeOutcome.isPanicked]
          · rfl
  refine ⟨?_, ?_, ?_, ?_⟩
  · intro s h
    unfold RayLogs.decode
    rw [h]
  · intro s b rest h hb
    unfold RayLogs.decode
    rw [h]
    exact hray b (b :: rest) hb
  · intro s h
    unfold PumpFunEvents.from_cpi_log
    rw [h]
  · intro s bytes h hlen
    unfold PumpFunEvents.from_cpi_log
    rw [h]
    have h8 : ¬(bytes.length < 8) := by omega
    simp only [if_neg h8]
    exact hpf (bytes.drop 8) (by simp [List.length_drop]; omega)

/-- Witness for `decoders_total_on_wellformed`: a one-byte init-type base64
payload and a 16-byte all-zero base58 payload. -/
theorem decoders_total_on_wellformed_witness :
    base64_decode "AA==" = some (0 :: []) ∧
    (RayLogs.decode "AA==").isPanicked = false ∧
    bs58_decode "1111111111111111" = some (List.replicate 16 0) ∧
    (PumpFunEvents.from_cpi_log "1111111111111111").isPanicked = false :=
  ⟨by rfl,
   decoders_total_on_wellformed.2.1 "AA==" 0 [] (by rfl) (by omega),
   by rfl,
   decoders_total_on_wellformed.2.2.2 "1111111111111111"
     (List.replicate 16 0) (by rfl) (by simp)⟩

end SolDexHub

namespace SolDexHub

/-! ## Production characterization of `TradeRecord` (claims about trade.rs)

Helper lemmas, one per constructor: given the pool-derivation outcome and a
non-error run, exactly when is a record produced? -/

/-- Pump-AMM buy: produced iff the pool has a WSOL side — there is **no**
zero-amount drop in this path. -/
theorem pumpamm_buy_some_iff (meta : TxBaseMetaInfo) (log : PumpAmmBuyEvent)
    (accounts : List IxAccount) (cached : Option DexPoolRecord)
    (pool : DexPoolRecord) (res : Option TradeRecord)
    (hpool : DexPoolRecord.from_pumpamm_swap_accounts log.pool accounts cached
      = .ok pool)
    (h : TradeRecord.from_pumpamm_buy meta log accounts cached = .ok res) :
    res.isSome = pool.is_wsol_pool := by
  unfold TradeRecord.from_pumpamm_buy at h
  rw [hpool] at h
  by_cases hw : pool.is_wsol_pool
  · simp only [hw, Bool.not_true, Bool.false_eq_true, if_false] at h
    split at h
    · exact absurd h (by simp)
    · split at h
      · exact absurd h (by simp)
      · split at h
        · exact absurd h (by simp)
        · split at h
          · exact absurd h (by simp)
          · cases h
            simp [hw]
  · simp only [hw, Bool.not_false, if_true] at h
    simp only [Bool.not_eq_true] at hw
    cases h
    simp [hw]

/-- Pump-AMM sell: produced iff the pool has a WSOL side — again no
zero-amount drop. -/
theorem pumpamm_sell_some_iff (meta : TxBaseMetaInfo) (log : PumpAmmSellEvent)
    (accounts : List IxAccount) (cached : Option DexPoolRecord)
    (pool : DexPoolRecord) (res : Option TradeRecord)
    (hpool : DexPoolRecord.from_pumpamm_swap_accounts log.pool accounts cached
      = .ok pool)
    (h : TradeRecord.from_pumpamm_sell meta log accounts cached = .ok res) :
    res.isSome = pool.is_wsol_pool := by
  unfold TradeRecord.from_pumpamm_sell at h
  rw [hpool] at h
  by_cases hw : pool.is_wsol_pool
  · simp only [hw, Bool.not_true, Bool.false_eq_true, if_false] at h
    split at h
    · exact absurd h (by simp)
    · split at h
      · exact absurd h (by simp)
      · split at h
        · exact absurd h (by simp)
        · split at h
          · exact absurd h (by simp)
          · cases h
            simp [hw]
  · simp only [hw, Bool.not_false, if_true] at h
    simp only [Bool.not_eq_true] at hw
    cases h
    simp [hw]

/-- Pumpfun trade: produced iff the pool has a WSOL side and both log
amounts are non-zero. -/
theorem pumpfun_trade_some_iff (meta : TxBaseMetaInfo) (log : TradeEvent)
    (accounts : List IxAccount) (cached : Option DexPoolRecord)
    (pool : DexPoolRecord) (res : Option TradeRecord)
    (hpool : DexPoolRecord.from_pumpfun_trade_accounts accounts cached
      = .ok pool)
    (h : TradeRecord.from_pumpfun_trade meta log accounts cached = .ok res) :
    (res.isSome = true ↔ pool.is_wsol_pool = true ∧
      log.sol_amount ≠ 0 ∧ log.token_amount ≠ 0) := by
  simp only [TradeRecord.from_pumpfun_trade, hpool] at h
  split at h
  · exact absurd h (by simp)
  · by_cases hw : pool.is_wsol_pool
    · simp only [hw, Bool.not_true, Bool.false_eq_true, if_false] at h
      split at h
      · exact absurd h (by simp)
      · split at h
        · next hz =>
          cases h
          simp only [Bool.or_eq_true, beq_iff_eq] at hz
          simp [hw]
          omega
        · next hz =>
          cases h
          simp only [Bool.or_eq_true, beq_iff_eq, not_or] at hz
          simp [hw]
          omega
    · simp only [hw, Bool.not_false, if_true] at h
      simp only [Bool.not_eq_true] at hw
      cases h
      simp [hw]

/-- Meteora DLMM swap: produced iff the pool has a WSOL side and the
selected SOL and token amounts are non-zero. -/
theorem dlmm_swap_some_iff (meta : TxBaseMetaInfo)
    (log : MeteoraDlmmSwapEvent) (accounts : List IxAccount)
    (cached : Option DexPoolRecord) (a0 : IxAccount) (pool : DexPoolRecord)
    (res : Option TradeRecord)
    (hacc : accounts.head? = some a0)
    (hpool : DexPoolRecord.from_meteora_swap_accounts a0.pubkey accounts
      cached = .ok pool)
    (h : TradeRecord.from_meteora_dlmm_swap meta log accounts cached
      = .ok res) :
    (res.isSome = true ↔ pool.is_wsol_pool = true ∧
      meteora_dlmm_sol_amt pool log ≠ 0 ∧
      meteora_dlmm_token_amt pool log ≠ 0) := by
  simp only [TradeRecord.from_meteora_dlmm_swap, hacc, hpool] at h
  by_cases hw : pool.is_wsol_pool
  · simp only [hw, Bool.not_true, Bool.false_eq_true, if_false] at h
    split at h
    · exact absurd h (by simp)
    · split at h
      · exact absurd h (by simp)
      · split at h
        · exact absurd h (by simp)
        · split at h
          · exact absurd h (by simp)
          · split at h
            · exact absurd h (by simp)
            · split at h
              · next hz =>
                cases h
                simp only [Bool.or_eq_true, beq_iff_eq] at hz
                simp [hw]
                omega
              · next hz =>
                cases h
                simp only [Bool.or_eq_true, beq_iff_eq, not_or] at hz
                simp [hw]
                omega
  · simp only [hw, Bool.not_false, if_true] at h
    simp only [Bool.not_eq_true] at hw
    cases h
    simp [hw]

/-- Raydium SwapBaseIn: produced iff the pool has a WSOL side and the
selected SOL and token amounts are non-zero. -/
theorem ray_base_in_some_iff (meta : TxBaseMetaInfo) (log : SwapBaseInLog)
    (accounts : List IxAccount) (cached : Option DexPoolRecord)
    (a1 : IxAccount) (pool : DexPoolRecord) (res : Option TradeRecord)
    (hacc : accounts[1]? = some a1)
    (hpool : DexPoolRecord.from_raydium_amm_trade_accounts a1.pubkey accounts
      cached = .ok pool)
    (h : TradeRecord.from_raydium_amm_swap_base_in meta log accounts cached
      = .ok res) :
    (res.isSome = true ↔ pool.is_wsol_pool = true ∧
      raydium_base_in_sol_amt pool log ≠ 0 ∧
      raydium_base_in_token_amt pool log ≠ 0) := by
  simp only [TradeRecord.from_raydium_amm_swap_base_in, hacc, hpool] at h
  by_cases hw : pool.is_wsol_pool
  · simp only [hw, Bool.not_true, Bool.false_eq_true, if_false] at h
    split at h
    · exact absurd h (by simp)
    · split at h
      · exact absurd h (by simp)
      · split at h
        · exact absurd h (by simp)
        · split at h
          · exact absurd h (by simp)
          · split at h
            · exact absurd h (by simp)
            · split at h
              · next hz =>
                cases h
                simp only [Bool.or_eq_true, beq_iff_eq] at hz
                simp [hw]
                omega
              · next hz =>
                cases h
                simp only [Bool.or_eq_true, beq_iff_eq, not_or] at hz
                simp [hw]
                omega
  · simp only [hw, Bool.not_false, if_true] at h
    simp only [Bool.not_eq_true] at hw
    cases h
    simp [hw]

/-- Raydium SwapBaseOut: produced iff the pool has a WSOL side and the
selected SOL and token amounts are non-zero. -/
theorem ray_base_out_some_iff (meta : TxBaseMetaInfo) (log : SwapBaseOutLog)
    (accounts : List IxAccount) (cached : Option DexPoolRecord)
    (a1 : IxAccount) (pool : DexPoolRecord) (res : Option TradeRecord)
    (hacc : accounts[1]? = some a1)
    (hpool : DexPoolRecord.from_raydium_amm_trade_accounts a1.pubkey accounts
      cached = .ok pool)
    (h : TradeRecord.from_raydium_amm_swap_base_out meta log accounts cached
      = .ok res) :
    (res.isSome = true ↔ pool.is_wsol_pool = true ∧
      raydium_base_out_sol_amt pool log ≠ 0 ∧
      raydium_base_out_token_amt pool log ≠ 0) := by
  simp only [TradeRecord.from_raydium_amm_swap_base_out, hacc, hpool] at h
  by_cases hw : pool.is_wsol_pool
  · simp only [hw, Bool.not_true, Bool.false_eq_true, if_false] at h
    split at h
    · exact absurd h (by simp)
    · split at h
      · exact absurd h (by simp)
      · split at h
        · exact absurd h (by simp)
        · split at h
          · exact absurd h (by simp)
          · split at h
            · exact absurd h (by simp)
            · split at h
              · next hz =>
                cases h
                simp only [Bool.or_eq_true, beq_iff_eq] at hz
                simp [hw]
                omega
              · next hz =>
                cases h
                simp only [Bool.or_eq_true, beq_iff_eq, not_or] at hz
                simp [hw]
                omega
  · simp only [hw, Bool.not_false, if_true] at h
    simp only [Bool.not_eq_true] at hw
    cases h
    simp [hw]

end SolDexHub

namespace SolDexHub

/-- Meteora DAMM swap: produced iff the pool has a WSOL side and the
selected SOL and token amounts are non-zero. -/
theorem damm_swap_some_iff (meta : TxBaseMetaInfo) (log : MeteoraDammSwap)
    (accounts : List IxAccount) (cached : Option DexPoolRecord)
    (a0 : IxAccount) (pool : DexPoolRecord) (res : Option TradeRecord)
    (hacc : accounts.head? = some a0)
    (hpool : DexPoolRecord.from_meteora_damm_swap_accounts a0.pubkey accounts
      cached = .ok pool)
    (h : TradeRecord.from_meteora_damm_swap meta log accounts cached
      = .ok res) :
    (res.isSome = true ↔ pool.is_wsol_pool = true ∧
      (meteora_damm_amounts (meteora_damm_is_buy accounts) log).1 ≠ 0 ∧
      (meteora_damm_amounts (meteora_damm_is_buy accounts) log).2 ≠ 0) := by
  simp only [TradeRecord.from_meteora_damm_swap, hacc, hpool] at h
  by_cases hw : pool.is_wsol_pool
  · simp only [hw, Bool.not_true, Bool.false_eq_true, if_false] at h
    split at h
    · exact absurd h (by simp)
    · split at h
      · exact absurd h (by simp)
      · split at h
        · exact absurd h (by simp)
        · split at h
          · exact absurd h (by simp)
          · split at h
            · exact absurd h (by simp)
            · split at h
              · exact absurd h (by simp)
              · rcases ham : meteora_damm_amounts
                    (meteora_damm_is_buy accounts) log with ⟨sa, ta⟩
                rw [ham] at h
                split at h
                · next hz =>
                  cases h
                  simp only [Bool.or_eq_true, beq_iff_eq] at hz
                  simp [hw]
                  omega
                · next hz =>
                  cases h
                  simp only [Bool.or_eq_true, beq_iff_eq, not_or] at hz
                  simp [hw]
                  omega
  · simp only [hw, Bool.not_false, if_true] at h
    simp only [Bool.not_eq_true] at hw
    cases h
    simp [hw]

/-- Meteora DAMM swap: every produced record carries the inferred direction
and the selected amount pair. -/
theorem damm_swap_ok_some_shape (meta : TxBaseMetaInfo)
    (log : MeteoraDammSwap) (accounts : List IxAccount)
    (cached : Option DexPoolRecord) (a0 : IxAccount) (pool : DexPoolRecord)
    (r : TradeRecord)
    (hacc : accounts.head? = some a0)
    (hpool : DexPoolRecord.from_meteora_damm_swap_accounts a0.pubkey accounts
      cached = .ok pool)
    (h : TradeRecord.from_meteora_damm_swap meta log accounts cached
      = .ok (some r)) :
    r.is_buy = meteora_damm_is_buy accounts ∧
    r.sol_amt = (meteora_damm_amounts (meteora_damm_is_buy accounts) log).1 ∧
    r.token_amt =
      (meteora_damm_amounts (meteora_damm_is_buy accounts) log).2 := by
  simp only [TradeRecord.from_meteora_damm_swap, hacc, hpool] at h
  by_cases hw : pool.is_wsol_pool
  · simp only [hw, Bool.not_true, Bool.false_eq_true, if_false] at h
    split at h
    · exact absurd h (by simp)
    · split at h
      · exact absurd h (by simp)
      · split at h
        · exact absurd h (by simp)
        · split at h
          · exact absurd h (by simp)
          · split at h
            · exact absurd h (by simp)
            · split at h
              · exact absurd h (by simp)
              · split at h
                · exact absurd h (by simp)
                · cases h
                  simp
  · simp only [hw, Bool.not_false, if_true] at h
    exact absurd h (by simp)

/-- `u64_wrap_sub` agrees with truncated subtraction in range. -/
theorem u64_wrap_sub_of_le (a b : Nat) (hb : b ≤ a) (ha : a < 2 ^ 64) :
    u64_wrap_sub a b = a - b := by
  unfold u64_wrap_sub
  have h64 : (2 : Nat) ^ 64 = 18446744073709551616 := by norm_num
  rw [h64] at ha ⊢
  omega

end SolDexHub

namespace SolDexHub

/-- Shared transaction metadata for the concrete runs below. -/
def metaC : TxBaseMetaInfo :=
  { blk_ts := 1700000000, slot := 2, txid := "txC1", idx := 3 }

/-- An instruction account with no token balances. -/
def dummyAcc : IxAccount :=
  { pubkey := "Dummy111", pre_amt := { sol := 0, token := none },
    post_amt := { sol := 0, token := none } }

/-- An instruction account holding a post token balance. -/
def tokenAcc (pk mint : String) (decimals amt : Nat) : IxAccount :=
  { pubkey := pk, pre_amt := { sol := 0, token := none },
    post_amt := { sol := 0, token := some { mint, decimals, amt } } }

/-- An instruction account holding a pre token balance. -/
def preTokenAcc (pk mint : String) (decimals amt : Nat) : IxAccount :=
  { pubkey := pk,
    pre_amt := { sol := 0, token := some { mint, decimals, amt } },
    post_amt := { sol := 0, token := none } }

/-- Nine Pump-AMM swap accounts with vaults at indices 7 and 8. -/
def pumpammAccounts : List IxAccount :=
  [dummyAcc, dummyAcc, dummyAcc, dummyAcc, dummyAcc, dummyAcc, dummyAcc,
   tokenAcc "BaseVault11" "TokenMintAaa" 6 111,
   tokenAcc "QuoteVault11" WSOL_MINT 9 222]

/-- A Pump-AMM pool quoted in WSOL (exactly one WSOL side). -/
def pumpammPool : DexPoolRecord :=
  { addr := "PumpPool111", dex := .pumpAmm, is_complete := false,
    mint_a := "TokenMintAaa", mint_b := WSOL_MINT, decimals_a := 6,
    decimals_b := 9 }

/-- A degenerate pool record whose two sides are both WSOL. -/
def bothWsolPool : DexPoolRecord :=
  { addr := "PumpPool111", dex := .pumpAmm, is_complete := false,
    mint_a := WSOL_MINT, mint_b := WSOL_MINT, decimals_a := 9,
    decimals_b := 9 }

/-- A Pump-AMM buy whose computed token amount is zero. -/
def zeroBuyLog : PumpAmmBuyEvent :=
  { timestamp := 0, base_amount_out := 0, max_quote_amount_in := 0,
    user_base_token_reserves := 0, user_quote_token_reserves := 0,
    pool_base_token_reserves := 0, pool_quote_token_reserves := 0,
    quote_amount_in := 5000, lp_fee_basis_points := 0, lp_fee := 0,
    protocol_fee_basis_points := 0, protocol_fee := 0,
    quote_amount_in_with_lp_fee := 5000, user_quote_amount_in := 5000,
    pool := "PumpPool111", user := "UserPk111" }

/-- The same buy with a non-zero base output. -/
def nonZeroBuyLog : PumpAmmBuyEvent := { zeroBuyLog with base_amount_out := 7 }

/-- The record `from_pumpamm_buy` emits for `zeroBuyLog` on `pumpammPool`. -/
def pumpammZeroTrade : TradeRecord :=
  { blk_ts := 1700000000, slot := 2, txid := "txC1", idx := 3,
    mint := "TokenMintAaa", decimals := 6, trader := "UserPk111",
    dex := .pumpAmm, pool := "PumpPool111", pool_sol_amt := 222,
    pool_token_amt := 111, is_buy := true, sol_amt := 5000, token_amt := 0 }

/-- The record `from_pumpamm_buy` emits for `nonZeroBuyLog` on
`bothWsolPool`. -/
def pumpammBothTrade : TradeRecord :=
  { blk_ts := 1700000000, slot := 2, txid := "txC1", idx := 3,
    mint := WSOL_MINT, decimals := 9, trader := "UserPk111",
    dex := .pumpAmm, pool := "PumpPool111", pool_sol_amt := 111,
    pool_token_amt := 222, is_buy := false, sol_amt := 7, token_amt := 5000 }

/-- C1 counterexample, two concrete runs of `from_pumpamm_buy`:
(a) on a WSOL pool with `base_amount_out = 0` a `TradeRecord` with
`token_amt = 0` **is** produced (the claimed zero-amount drop does not exist
on the Pump-AMM paths); (b) on a pool whose two mints are both WSOL — not
"exactly one" — a record is also produced, because `is_wsol_pool` tests
`mint_a == WSOL || mint_b == WSOL`. -/
theorem trade_record_production_counterexample :
    pumpammPool.is_wsol_pool = true ∧
    TradeRecord.from_pumpamm_buy metaC zeroBuyLog pumpammAccounts
      (some pumpammPool) = .ok (some pumpammZeroTrade) ∧
    pumpammZeroTrade.token_amt = 0 ∧
    bothWsolPool.mint_a = WSOL_MINT ∧ bothWsolPool.mint_b = WSOL_MINT ∧
    TradeRecord.from_pumpamm_buy metaC nonZeroBuyLog pumpammAccounts
      (some bothWsolPool) = .ok (some pumpammBothTrade) :=
  ⟨rfl, rfl, rfl, rfl, rfl, rfl⟩

/-- C1 (amended): fix `cached` to the pool-cache lookup outcome and let the
constructor run without a shape error; then a `TradeRecord` is produced iff
the pool has **at least one** WSOL side and — on every path except Pump-AMM
buy/sell, which lack the zero-amount guard — the computed SOL and token
amounts are both non-zero. -/
theorem trade_record_production_characterization :
    (∀ meta log accounts cached pool res,
      DexPoolRecord.from_pumpamm_swap_accounts
        (PumpAmmBuyEvent.pool log) accounts cached = .ok pool →
      TradeRecord.from_pumpamm_buy meta log accounts cached = .ok res →
      res.isSome = pool.is_wsol_pool) ∧
    (∀ meta log accounts cached pool res,
      DexPoolRecord.from_pumpamm_swap_accounts
        (PumpAmmSellEvent.pool log) accounts cached = .ok pool →
      TradeRecord.from_pumpamm_sell meta log accounts cached = .ok res →
      res.isSome = pool.is_wsol_pool) ∧
    (∀ meta log accounts cached pool res,
      DexPoolRecord.from_pumpfun_trade_accounts accounts cached = .ok pool →
      TradeRecord.from_pumpfun_trade meta log accounts cached = .ok res →
      (res.isSome = true ↔ pool.is_wsol_pool = true ∧
        TradeEvent.sol_amount log ≠ 0 ∧ TradeEvent.token_amount log ≠ 0)) ∧
    (∀ meta log accounts cached a0 pool res,
      accounts.head? = some a0 →
      DexPoolRecord.from_meteora_swap_accounts (IxAccount.pubkey a0) accounts
        cached = .ok pool →
      TradeRecord.from_meteora_dlmm_swap meta log accounts cached = .ok res →
      (res.isSome = true ↔ pool.is_wsol_pool = true ∧
        meteora_dlmm_sol_amt pool log ≠ 0 ∧
        meteora_dlmm_token_amt pool log ≠ 0)) ∧
    (∀ meta log accounts cached a0 pool res,
      accounts.head? = some a0 →
      DexPoolRecord.from_meteora_damm_swap_accounts (IxAccount.pubkey a0)
        accounts cached = .ok pool →
      TradeRecord.from_meteora_damm_swap meta log accounts cached = .ok res →
      (res.isSome = true ↔ pool.is_wsol_pool = true ∧
        (meteora_damm_amounts (meteora_damm_is_buy accounts) log).1 ≠ 0 ∧
        (meteora_damm_amounts (meteora_damm_is_buy accounts) log).2 ≠ 0)) ∧
    (∀ meta log accounts cached a1 pool res,
      accounts[1]? = some a1 →
      DexPoolRecord.from_raydium_amm_trade_accounts (IxAccount.pubkey a1)
        accounts cached = .ok pool →
      TradeRecord.from_raydium_amm_swap_base_in meta log accounts cached
        = .ok res →
      (res.isSome = true ↔ pool.is_wsol_pool = true ∧
        raydium_base_in_sol_amt pool log ≠ 0 ∧
        raydium_base_in_token_amt pool log ≠ 0)) ∧
    (∀ meta log accounts cached a1 pool res,
      accounts[1]? = some a1 →
      DexPoolRecord.from_raydium_amm_trade_accounts (IxAccount.pubkey a1)
        accounts cached = .ok pool →
      TradeRecord.from_raydium_amm_swap_base_out meta log accounts cached
        = .ok res →
      (res.isSome = true ↔ pool.is_wsol_pool = true ∧
        raydium_base_out_sol_amt pool log ≠ 0 ∧
        raydium_base_out_token_amt pool log ≠ 0)) :=
  ⟨fun _ _ _ _ _ _ hp h => pumpamm_buy_some_iff _ _ _ _ _ _ hp h,
   fun _ _ _ _ _ _ hp h => pumpamm_sell_some_iff _ _ _ _ _ _ hp h,
   fun _ _ _ _ _ _ hp h => pumpfun_trade_some_iff _ _ _ _ _ _ hp h,
   fun _ _ _ _ _ _ _ ha hp h => dlmm_swap_some_iff _ _ _ _ _ _ _ ha hp h,
   fun _ _ _ _ _ _ _ ha hp h => damm_swap_some_iff _ _ _ _ _ _ _ ha hp h,
   fun _ _ _ _ _ _ _ ha hp h => ray_base_in_some_iff _ _ _ _ _ _ _ ha hp h,
   fun _ _ _ _ _ _ _ ha hp h => ray_base_out_some_iff _ _ _ _ _ _ _ ha hp h⟩

/-- Witness for `trade_record_production_characterization` at the concrete
Pump-AMM run from the counterexample. -/
theorem trade_record_production_characterization_witness :
    DexPoolRecord.from_pumpamm_swap_accounts (PumpAmmBuyEvent.pool zeroBuyLog)
      pumpammAccounts (some pumpammPool) = .ok pumpammPool ∧
    TradeRecord.from_pumpamm_buy metaC zeroBuyLog pumpammAccounts
      (some pumpammPool) = .ok (some pumpammZeroTrade) ∧
    (some pumpammZeroTrade).isSome = pumpammPool.is_wsol_pool :=
  ⟨rfl, rfl,
   trade_record_production_characterization.1 metaC zeroBuyLog
     pumpammAccounts (some pumpammPool) pumpammPool (some pumpammZeroTrade)
     rfl rfl⟩

end SolDexHub

namespace SolDexHub

/-- C8: for a Meteora DAMM swap that yields a record, the direction is
inferred from account 1's token mint (WSOL ⇒ buy), falling back to
"account 2's mint is not WSOL" when account 1 carries no token balance; a
buy pays `inAmount − protocolFee` in SOL for `outAmount` tokens, a sell
mirrors the pair. -/
theorem meteora_damm_direction_and_amounts (meta : TxBaseMetaInfo)
    (log : MeteoraDammSwap) (accounts : List IxAccount)
    (cached : Option DexPoolRecord) (a0 : IxAccount) (pool : DexPoolRecord)
    (r : TradeRecord)
    (hacc : accounts.head? = some a0)
    (hpool : DexPoolRecord.from_meteora_damm_swap_accounts a0.pubkey accounts
      cached = .ok pool)
    (h : TradeRecord.from_meteora_damm_swap meta log accounts cached
      = .ok (some r))
    (hfee : log.protocol_fee ≤ log.in_amount)
    (hin : log.in_amount < 2 ^ 64) :
    (∀ m, meteora_damm_user_source_token_mint accounts = some m →
      (r.is_buy = true ↔ m = WSOL_MINT)) ∧
    (meteora_damm_user_source_token_mint accounts = none →
      ∀ m2, meteora_damm_user_dest_token_mint accounts = some m2 →
        (r.is_buy = true ↔ m2 ≠ WSOL_MINT)) ∧
    (r.is_buy = true →
      r.sol_amt = log.in_amount - log.protocol_fee ∧
      r.token_amt = log.out_amount) ∧
    (r.is_buy = false →
      r.sol_amt = log.out_amount ∧
      r.token_amt = log.in_amount - log.protocol_fee) := by
  obtain ⟨hb, hs, ht⟩ :=
    damm_swap_ok_some_shape meta log accounts cached a0 pool r hacc hpool h
  have hsub := u64_wrap_sub_of_le log.in_amount log.protocol_fee hfee hin
  refine ⟨?_, ?_, ?_, ?_⟩
  · intro m hm
    rw [hb]
    unfold meteora_damm_is_buy
    rw [hm]
    simp
  · intro hnone m2 hm2
    rw [hb]
    unfold meteora_damm_is_buy
    rw [hnone, hm2]
    simp
  · intro hbuy
    have hbt : meteora_damm_is_buy accounts = true := by rw [← hb]; exact hbuy
    rw [hs, ht]
    unfold meteora_damm_amounts
    rw [hbt]
    simpa using hsub
  · intro hsell
    have hbf : meteora_damm_is_buy accounts = false := by
      rw [← hb]; exact hsell
    rw [hs, ht]
    unfold meteora_damm_amounts
    rw [hbf]
    simpa using hsub

/-- The pool account heading the DAMM swap account list. -/
def dammHeadAcc : IxAccount :=
  { pubkey := "DammPool111", pre_amt := { sol := 0, token := none },
    post_amt := { sol := 0, token := none } }

/-- Thirteen Meteora DAMM swap accounts: pool at 0, user source (WSOL) at 1,
vaults at 5 and 6, trader at 12. -/
def dammAccounts : List IxAccount :=
  [dammHeadAcc,
   preTokenAcc "UserSrc111" WSOL_MINT 9 1000000,
   dummyAcc, dummyAcc, dummyAcc,
   tokenAcc "VaultA11" "TokenMintAaa" 6 333,
   tokenAcc "VaultB11" WSOL_MINT 9 444,
   dummyAcc, dummyAcc, dummyAcc, dummyAcc, dummyAcc,
   dummyAcc]

/-- The spec's S5 fixture: `inAmount 1000000`, `protocolFee 1000`,
`outAmount 50`. -/
def dammLog : MeteoraDammSwap :=
  { in_amount := 1000000, out_amount := 50, trade_fee := 0,
    protocol_fee := 1000, host_fee := 0 }

/-- A Meteora DAMM pool quoted in WSOL. -/
def dammPool : DexPoolRecord :=
  { addr := "DammPool111", dex := .meteoraDamm, is_complete := false,
    mint_a := "TokenMintAaa", mint_b := WSOL_MINT, decimals_a := 6,
    decimals_b := 9 }

/-- The record `from_meteora_damm_swap` emits on the S5 fixture:
`isBuy = true`, `solAmt = 999000`, `tokenAmt = 50`. -/
def dammTrade : TradeRecord :=
  { blk_ts := 1700000000, slot := 2, txid := "txC1", idx := 3,
    mint := "TokenMintAaa", decimals := 6, trader := "Dummy111",
    dex := .meteoraDamm, pool := "DammPool111", pool_sol_amt := 444,
    pool_token_amt := 333, is_buy := true, sol_amt := 999000,
    token_amt := 50 }

/-- Witness for `meteora_damm_direction_and_amounts` on the spec's S5
numbers. -/
theorem meteora_damm_direction_and_amounts_witness :
    dammAccounts.head? = some (dammHeadAcc) ∧
    DexPoolRecord.from_meteora_damm_swap_accounts
      (IxAccount.pubkey dammHeadAcc) dammAccounts (some dammPool)
      = .ok dammPool ∧
    TradeRecord.from_meteora_damm_swap metaC dammLog dammAccounts
      (some dammPool) = .ok (some dammTrade) ∧
    dammLog.protocol_fee ≤ dammLog.in_amount ∧
    (dammTrade.is_buy = true →
      dammTrade.sol_amt = dammLog.in_amount - dammLog.protocol_fee ∧
      dammTrade.token_amt = dammLog.out_amount) :=
  ⟨rfl, rfl, rfl, by norm_num [dammLog],
   (meteora_damm_direction_and_amounts metaC dammLog dammAccounts
     (some dammPool) dammHeadAcc dammPool dammTrade rfl rfl rfl
     (by norm_num [dammLog]) (by norm_num [dammLog])).2.2.1⟩

end SolDexHub
